import Mathlib

/-!
# Verification of the sweep / nearest-neighbor / RVND route-optimization core

Shallow embedding of the optimization pipeline of this repository
(`Program/rvnd.py` and `Program/sweep_nn.py`) and proofs of the stated
properties.

Modeling conventions:
* Python floats are modeled by exact rationals `ℚ`; all concrete inputs used
  in counterexamples and witnesses are dyadic rationals of small magnitude,
  on which Python float arithmetic is exact, so the model and the program
  agree on those inputs.
* Time-window clock strings are modeled already parsed to minutes
  (`parse_time_to_minutes` maps an `HH:MM` string to the rational
  `60*H + M`); the evaluators consume only the parsed minute values.
* Python dict lookups that can raise `KeyError`, list indexing that can
  raise `IndexError`, and the `RuntimeError` raised by clustering are
  modeled with `Option`/`Except`: `none`/`.error` is an uncaught exception.
* Python dict construction (last occurrence of a key wins) is modeled by
  `getLast?` over the filtered association list.
* `round` and the `:02.0f` float format round half to even (`pyRound`).
-/

set_option allowUnsafeReducibility true in
attribute [semireducible] Rat.add Rat.sub Rat.mul Rat.inv Rat.ofScientific

namespace RouteOpt

/-- A time window, already parsed to minutes. -/
structure TimeWindow where
  tw_start : ℚ
  tw_end : ℚ
deriving DecidableEq, Repr, Inhabited

/-- The depot record of the parsed instance. -/
structure Depot where
  x : ℚ
  y : ℚ
  time_window : TimeWindow
  service_time : ℚ
deriving DecidableEq, Repr, Inhabited

/-- A customer record of the parsed instance. -/
structure Customer where
  id : ℤ
  x : ℚ
  y : ℚ
  demand : ℚ
  time_window : TimeWindow
  service_time : ℚ
deriving DecidableEq, Repr, Inhabited

/-- A fleet-type record: identifier, capacity, available unit count. -/
structure Fleet where
  id : String
  capacity : ℚ
  units : ℤ
deriving DecidableEq, Repr, Inhabited

/-- The parsed instance. -/
structure Instance where
  depot : Depot
  customers : List Customer
  fleet : List Fleet
deriving DecidableEq, Repr, Inhabited

/-- The parsed distance record: node ids in matrix-index order, plus the two
square matrices, indexed through the id→index map. -/
structure DistanceData where
  nodes : List ℤ
  distance_matrix : List (List ℚ)
  travel_time_matrix : List (List ℚ)
deriving DecidableEq, Repr, Inhabited

/-- Python `round` / `:.0f` float formatting: round half to even. -/
def pyRound (q : ℚ) : ℤ :=
  let f := ⌊q⌋
  let r := q - f
  if r < 1/2 then f else if 1/2 < r then f + 1 else if f % 2 = 0 then f else f + 1

/-- Python `f"{n:02d}"` (also `f"{x:02.0f}"` after rounding): decimal string,
zero-padded on the left to width 2 (the sign counts toward the width). -/
def pad2 (n : ℤ) : String :=
  let s := toString n
  if s.length < 2 then "0" ++ s else s

namespace Rvnd

/-- `minutes_to_clock` of `rvnd.py`: `HH:MM`, plus `+SSs` when the
sub-minute remainder of the fractional part rounds to a nonzero second. -/
def minutes_to_clock (value : ℚ) : String :=
  let hours : ℤ := ⌊value / 60⌋
  let minutes : ℤ := ⌊value - 60 * hours⌋
  let seconds : ℤ := pyRound ((value - ⌊value⌋) * 60)
  if seconds = 0 then pad2 hours ++ ":" ++ pad2 minutes
  else pad2 hours ++ ":" ++ pad2 minutes ++ "+" ++ pad2 seconds ++ "s"

end Rvnd

/-- The id→matrix-index map `{node["id"]: idx}` (last occurrence wins). -/
def node_index (dd : DistanceData) (nid : ℤ) : Option ℕ :=
  ((dd.nodes.enum.filter (fun p => p.2 == nid)).getLast?).map (fun p => p.1)

/-- Row/column access into a matrix; `none` is an `IndexError`. -/
def matrix_at (m : List (List ℚ)) (i j : ℕ) : Option ℚ :=
  (m.get? i).bind fun row => row.get? j

/-- `matrix[node_index[a]][node_index[b]]`; `none` is a `KeyError` or
`IndexError`. -/
def matrix_lookup (dd : DistanceData) (m : List (List ℚ)) (a b : ℤ) : Option ℚ := do
  let ia ← node_index dd a
  let ib ← node_index dd b
  matrix_at m ia ib

/-- The dict `{customer["id"]: customer}` (last occurrence wins). -/
def customers_dict (inst : Instance) (cid : ℤ) : Option Customer :=
  (inst.customers.filter (fun c => c.id == cid)).getLast?

/-- Time-window start/end and service time of a node: the depot's when the id
is 0, otherwise the customer record's (a `KeyError` when absent). -/
def node_tw_service (inst : Instance) (nid : ℤ) : Option (ℚ × ℚ × ℚ) :=
  if nid = 0 then
    some (inst.depot.time_window.tw_start, inst.depot.time_window.tw_end,
          inst.depot.service_time)
  else
    (customers_dict inst nid).map fun c =>
      (c.time_window.tw_start, c.time_window.tw_end, c.service_time)

namespace Rvnd

/-- One stop record appended by `evaluate_route`. -/
structure Stop where
  node_id : ℤ
  arrival : ℚ
  arrival_str : String
  departure : ℚ
  departure_str : String
  wait : ℚ
  violation : ℚ
deriving DecidableEq, Repr, Inhabited

/-- The metrics dict returned by `evaluate_route`. -/
structure Metrics where
  sequence : List ℤ
  stops : List Stop
  total_distance : ℚ
  total_travel_time : ℚ
  total_service_time : ℚ
  total_time_component : ℚ
  total_tw_violation : ℚ
  objective : ℚ
deriving DecidableEq, Repr, Inhabited

/-- One iteration of the `for next_node in sequence[1:]` loop of
`evaluate_route`: matrix lookups, chronological time-window arithmetic, and
the stop record. Returns `(distance, travel, service_time, stop)`. -/
def evalStep (inst : Instance) (dd : DistanceData) (prev next : ℤ)
    (current_time : ℚ) : Option (ℚ × ℚ × ℚ × Stop) :=
  match matrix_lookup dd dd.travel_time_matrix prev next with
  | none => none
  | some travel =>
    match matrix_lookup dd dd.distance_matrix prev next with
    | none => none
    | some distance =>
      match node_tw_service inst next with
      | none => none
      | some tws =>
        let arrival_no_wait := current_time + travel
        let arrival := max tws.1 arrival_no_wait
        let wait := max 0 (tws.1 - arrival_no_wait)
        let violation := max 0 (arrival - tws.2.1)
        let departure := arrival + tws.2.2
        some (distance, travel, tws.2.2,
          ⟨next, arrival, minutes_to_clock arrival, departure,
           minutes_to_clock departure, wait, violation⟩)

/-- The accumulation loop of `evaluate_route` over `sequence[1:]`, carrying
the previous node and its departure time. Returns the stop list and the
distance / travel / service / violation sums (service and violation are
accumulated only at customer stops). -/
def evalGo (inst : Instance) (dd : DistanceData) :
    ℤ → ℚ → List ℤ → Option (List Stop × ℚ × ℚ × ℚ × ℚ)
  | _, _, [] => some ([], 0, 0, 0, 0)
  | prev, t, next :: rest =>
    match evalStep inst dd prev next t with
    | none => none
    | some step =>
      match evalGo inst dd next step.2.2.2.departure rest with
      | none => none
      | some tail =>
        some (step.2.2.2 :: tail.1,
              step.1 + tail.2.1,
              step.2.1 + tail.2.2.1,
              (if next ≠ 0 then step.2.2.1 else 0) + tail.2.2.2.1,
              (if next ≠ 0 then step.2.2.2.violation else 0) + tail.2.2.2.2)

/-- `evaluate_route` of `rvnd.py`: chronological simulation of a node
sequence. `none` is an uncaught `KeyError`/`IndexError` (empty sequence or a
node id missing from the index map or matrices). -/
def evaluate_route (sequence : List ℤ) (inst : Instance) (dd : DistanceData) :
    Option Metrics :=
  match sequence with
  | [] => none
  | s0 :: rest =>
    let dstart := inst.depot.time_window.tw_start
    let t0 := dstart + inst.depot.service_time
    let stop0 : Stop :=
      ⟨0, dstart, minutes_to_clock dstart, t0, minutes_to_clock t0, 0, 0⟩
    (evalGo inst dd s0 t0 rest).map fun r =>
      ⟨sequence, stop0 :: r.1, r.2.1, r.2.2.1, r.2.2.2.1,
       r.2.2.1 + r.2.2.2.1, r.2.2.2.2,
       r.2.1 + (r.2.2.1 + r.2.2.2.1) + r.2.2.2.2⟩

/-- `two_opt` move generation: all interior pairs `i < j`. -/
def two_opt (s : List ℤ) : List (ℕ × ℕ) :=
  (List.range' 1 (s.length - 3)).flatMap fun i =>
    (List.range' (i + 1) (s.length - 1 - (i + 1))).map fun j => (i, j)

/-- `apply_two_opt`: reverse the slice `[i..j]` inclusive. -/
def apply_two_opt (s : List ℤ) (i j : ℕ) : List ℤ :=
  s.take i ++ ((s.drop i).take (j + 1 - i)).reverse ++ s.drop (j + 1)

/-- `swap_moves` move generation: all interior pairs `i < j`. -/
def swap_moves (s : List ℤ) : List (ℕ × ℕ) :=
  (List.range' 1 (s.length - 3)).flatMap fun i =>
    (List.range' (i + 1) (s.length - 1 - (i + 1))).map fun j => (i, j)

/-- `apply_swap`: exchange the entries at `i` and `j`. -/
def apply_swap (s : List ℤ) (i j : ℕ) : List ℤ :=
  (s.set i (s.getD j 0)).set j (s.getD i 0)

/-- `relocate_moves` move generation: interior sources `i`, targets `j`
in `1..len-1`, excluding the no-ops `j = i` and `j = i+1`. -/
def relocate_moves (s : List ℤ) : List (ℕ × ℕ) :=
  (List.range' 1 (s.length - 2)).flatMap fun i =>
    ((List.range' 1 (s.length - 1)).filter
      (fun j => !(j == i || j == i + 1))).map fun j => (i, j)

/-- `apply_relocate`: pop the entry at `i` and re-insert it at `j - 1` when
`j > i`, at `j` otherwise (Python `list.insert` clamps to the end). -/
def apply_relocate (s : List ℤ) (i j : ℕ) : List ℤ :=
  let node := s.getD i 0
  let removed := s.take i ++ s.drop (i + 1)
  let pos := if i < j then j - 1 else j
  removed.take pos ++ node :: removed.drop pos

/-- All candidate sequences of one RVND round in scan order: two-opt moves,
then swap moves, then relocate moves, each in generation order. -/
def neighbors (s : List ℤ) : List (List ℤ) :=
  (two_opt s).map (fun m => apply_two_opt s m.1 m.2)
    ++ (swap_moves s).map (fun m => apply_swap s m.1 m.2)
    ++ (relocate_moves s).map (fun m => apply_relocate s m.1 m.2)

/-- Outcome of scanning one round of candidates. -/
inductive ScanResult where
  | err : ScanResult
  | found : List ℤ → ℚ → ScanResult
  | exhausted : ScanResult
deriving DecidableEq, Repr, Inhabited

/-- First-improvement scan: evaluate candidates in order and return the first
whose `total_distance` is strictly below the incumbent distance, together
with its distance; `.err` is an evaluation exception. -/
def scanCands (inst : Instance) (dd : DistanceData) (best_distance : ℚ) :
    List (List ℤ) → ScanResult
  | [] => .exhausted
  | c :: rest =>
    match evaluate_route c inst dd with
    | none => .err
    | some m =>
      if m.total_distance < best_distance then .found c m.total_distance
      else scanCands inst dd best_distance rest

/-- One round of the RVND `while` loop on the current best sequence. -/
def scanRound (inst : Instance) (dd : DistanceData) (s : List ℤ) (bd : ℚ) :
    ScanResult :=
  scanCands inst dd bd (neighbors s)

/-- The RVND `while improved and iterations < max_iterations` loop:
each round accepts the first strictly-improving candidate and restarts, or
stops when a full round accepts nothing; `fuel` is the remaining rounds. -/
def rvndLoop (inst : Instance) (dd : DistanceData) :
    ℕ → List ℤ → ℚ → Option (List ℤ)
  | 0, s, _ => some s
  | fuel + 1, s, bd =>
    match scanRound inst dd s bd with
    | .err => none
    | .exhausted => some s
    | .found c d => rvndLoop inst dd fuel c d

/-- The route dict consumed by `rvnd_route` (only `sequence` is read). -/
structure RouteIn where
  sequence : List ℤ
deriving DecidableEq, Repr, Inhabited

/-- `max_iterations` of `rvnd_route`. -/
def max_iterations : ℕ := 100

/-- `rvnd_route` of `rvnd.py`: evaluate the baseline, run up to
`max_iterations` first-improvement rounds over the three neighborhoods, and
re-evaluate the final sequence. The pseudo-random source `rng` is accepted
but never consulted. -/
def rvnd_route {R : Type} (route : RouteIn) (inst : Instance)
    (dd : DistanceData) (rng : R) : Option Metrics :=
  match evaluate_route route.sequence inst dd with
  | none => none
  | some baseline =>
    match rvndLoop inst dd max_iterations route.sequence baseline.total_distance with
    | none => none
    | some best => evaluate_route best inst dd

/-! ## List-level lemmas about the move appliers -/

/-- Dropping strictly less than the length preserves the last element. -/
theorem getLast?_drop_eq {α : Type} {l : List α} {k : ℕ} (h : k < l.length) :
    (l.drop k).getLast? = l.getLast? := by
  rw [List.getLast?_eq_getElem?, List.getLast?_eq_getElem?, List.getElem?_drop,
    List.length_drop]
  congr 1
  omega

/-- A list prefixed by a nonempty take keeps the head. -/
theorem head?_take_append {α : Type} {l r : List α} {i : ℕ} (h1 : 1 ≤ i)
    (h2 : i ≤ l.length) : (l.take i ++ r).head? = l.head? := by
  cases l with
  | nil => simp at h2; omega
  | cons a t =>
    obtain ⟨k, rfl⟩ : ∃ k, i = k + 1 := ⟨i - 1, by omega⟩
    simp [List.take_succ_cons]

theorem mem_two_opt {s : List ℤ} {i j : ℕ} :
    (i, j) ∈ two_opt s ↔ 1 ≤ i ∧ i < j ∧ j + 2 ≤ s.length := by
  simp only [two_opt, List.mem_flatMap, List.mem_map, List.mem_range'_1,
    Prod.mk.injEq]
  constructor
  · rintro ⟨a, ha, b, hb, rfl, rfl⟩
    omega
  · rintro ⟨h1, h2, h3⟩
    exact ⟨i, by omega, j, by omega, rfl, rfl⟩

theorem mem_swap_moves {s : List ℤ} {i j : ℕ} :
    (i, j) ∈ swap_moves s ↔ 1 ≤ i ∧ i < j ∧ j + 2 ≤ s.length := by
  simp only [swap_moves, List.mem_flatMap, List.mem_map, List.mem_range'_1,
    Prod.mk.injEq]
  constructor
  · rintro ⟨a, ha, b, hb, rfl, rfl⟩
    omega
  · rintro ⟨h1, h2, h3⟩
    exact ⟨i, by omega, j, by omega, rfl, rfl⟩

theorem mem_relocate_moves {s : List ℤ} {i j : ℕ} :
    (i, j) ∈ relocate_moves s ↔
      1 ≤ i ∧ i + 2 ≤ s.length ∧ 1 ≤ j ∧ j + 1 ≤ s.length ∧ j ≠ i ∧ j ≠ i + 1 := by
  simp only [relocate_moves, List.mem_flatMap, List.mem_map, List.mem_filter,
    List.mem_range'_1, Prod.mk.injEq, Bool.not_eq_true',
    Bool.or_eq_false_iff, beq_eq_false_iff_ne, ne_eq]
  constructor
  · rintro ⟨a, ha, b, ⟨hb, hb1, hb2⟩, rfl, rfl⟩
    omega
  · rintro ⟨h1, h2, h3, h4, h5, h6⟩
    exact ⟨i, by omega, j, ⟨by omega, h5, h6⟩, rfl, rfl⟩

open List in
theorem apply_two_opt_perm {s : List ℤ} {i j : ℕ} (hij : i ≤ j + 1) :
    List.Perm (apply_two_opt s i j) s := by
  have hdrop : (s.drop i).take (j + 1 - i) ++ s.drop (j + 1) = s.drop i := by
    conv_rhs => rw [← List.take_append_drop (j + 1 - i) (s.drop i)]
    rw [List.drop_drop]
    congr 2
    omega
  calc apply_two_opt s i j
      = s.take i ++ (((s.drop i).take (j + 1 - i)).reverse ++ s.drop (j + 1)) := by
        simp [apply_two_opt, List.append_assoc]
    _ ~ s.take i ++ ((s.drop i).take (j + 1 - i) ++ s.drop (j + 1)) :=
        List.Perm.append_left _ (List.Perm.append_right _ (List.reverse_perm _))
    _ = s.take i ++ s.drop i := by rw [hdrop]
    _ = s := List.take_append_drop i s

theorem apply_two_opt_head? {s : List ℤ} {i j : ℕ} (h1 : 1 ≤ i)
    (h2 : i ≤ s.length) : (apply_two_opt s i j).head? = s.head? := by
  rw [apply_two_opt, List.append_assoc, head?_take_append h1 h2]

theorem apply_two_opt_getLast? {s : List ℤ} {i j : ℕ} (h : j + 1 < s.length) :
    (apply_two_opt s i j).getLast? = s.getLast? := by
  have hne : s.drop (j + 1) ≠ [] := by
    apply List.ne_nil_of_length_pos
    rw [List.length_drop]
    omega
  rw [apply_two_opt, List.getLast?_append_of_ne_nil _ hne, getLast?_drop_eq h]

/-- Decomposition of `apply_swap` into take/drop segments. -/
theorem apply_swap_eq {s : List ℤ} {i j : ℕ} (hij : i < j) (hj : j < s.length) :
    apply_swap s i j =
      s.take i ++ s.getD j 0 ::
        ((s.drop (i + 1)).take (j - (i + 1)) ++ s.getD i 0 :: s.drop (j + 1)) := by
  have hi : i < s.length := lt_trans hij hj
  have hlen : (s.take i).length = i := by
    rw [List.length_take]
    omega
  rw [apply_swap, List.set_eq_take_cons_drop _ hi, List.set_append_right _ _ (by omega),
    hlen]
  have hji : j - i = (j - (i + 1)) + 1 := by omega
  rw [hji, List.set_cons_succ]
  congr 2
  rw [List.set_eq_take_cons_drop _ (by rw [List.length_drop]; omega), List.drop_drop]
  congr 3
  omega

/-- Decomposition of the original list matching `apply_swap_eq`. -/
theorem swap_split {s : List ℤ} {i j : ℕ} (hij : i < j) (hj : j < s.length) :
    s = s.take i ++ s.getD i 0 ::
        ((s.drop (i + 1)).take (j - (i + 1)) ++ s.getD j 0 :: s.drop (j + 1)) := by
  have hi : i < s.length := lt_trans hij hj
  conv_lhs => rw [← List.take_append_drop i s]
  congr 1
  rw [List.drop_eq_getElem_cons hi, List.getD_eq_getElem _ _ hi]
  congr 1
  conv_lhs => rw [← List.take_append_drop (j - (i + 1)) (s.drop (i + 1))]
  congr 1
  rw [List.drop_drop]
  have : i + 1 + (j - (i + 1)) = j := by omega
  rw [this, List.drop_eq_getElem_cons hj, List.getD_eq_getElem _ _ hj]

open List in
theorem apply_swap_perm {s : List ℤ} {i j : ℕ} (hij : i < j) (hj : j < s.length) :
    List.Perm (apply_swap s i j) s := by
  rw [apply_swap_eq hij hj]
  conv_rhs => rw [swap_split hij hj]
  apply List.Perm.append_left
  calc s.getD j 0 :: ((s.drop (i + 1)).take (j - (i + 1)) ++ s.getD i 0 :: s.drop (j + 1))
      ~ s.getD j 0 :: s.getD i 0 ::
          ((s.drop (i + 1)).take (j - (i + 1)) ++ s.drop (j + 1)) :=
        List.Perm.cons _ List.perm_middle
    _ ~ s.getD i 0 :: s.getD j 0 ::
          ((s.drop (i + 1)).take (j - (i + 1)) ++ s.drop (j + 1)) :=
        List.Perm.swap _ _ _
    _ ~ s.getD i 0 :: ((s.drop (i + 1)).take (j - (i + 1)) ++ s.getD j 0 :: s.drop (j + 1)) :=
        List.Perm.cons _ List.perm_middle.symm

theorem apply_swap_head? {s : List ℤ} {i j : ℕ} (h1 : 1 ≤ i) (hij : i < j)
    (hj : j < s.length) : (apply_swap s i j).head? = s.head? := by
  rw [apply_swap_eq hij hj, head?_take_append h1 (by omega)]

theorem apply_swap_getLast? {s : List ℤ} {i j : ℕ} (hij : i < j)
    (hj : j + 1 < s.length) : (apply_swap s i j).getLast? = s.getLast? := by
  rw [apply_swap_eq hij (by omega)]
  have hsplit : s.take i ++ s.getD j 0 ::
      ((s.drop (i + 1)).take (j - (i + 1)) ++ s.getD i 0 :: s.drop (j + 1)) =
      (s.take i ++ s.getD j 0 ::
        ((s.drop (i + 1)).take (j - (i + 1)) ++ [s.getD i 0])) ++ s.drop (j + 1) := by
    simp
  have hne : s.drop (j + 1) ≠ [] := by
    apply List.ne_nil_of_length_pos
    rw [List.length_drop]
    omega
  rw [hsplit, List.getLast?_append_of_ne_nil _ hne, getLast?_drop_eq hj]

/-- The popped-and-reinserted shape of `apply_relocate`. -/
theorem apply_relocate_eq (s : List ℤ) (i j : ℕ) :
    apply_relocate s i j =
      (s.eraseIdx i).take (if i < j then j - 1 else j) ++
        s.getD i 0 :: (s.eraseIdx i).drop (if i < j then j - 1 else j) := by
  rw [apply_relocate, List.eraseIdx_eq_take_drop_succ]

open List in
theorem apply_relocate_perm {s : List ℤ} {i j : ℕ} (hi : i < s.length) :
    List.Perm (apply_relocate s i j) s := by
  rw [apply_relocate_eq]
  calc (s.eraseIdx i).take (if i < j then j - 1 else j) ++
        s.getD i 0 :: (s.eraseIdx i).drop (if i < j then j - 1 else j)
      ~ s.getD i 0 :: ((s.eraseIdx i).take (if i < j then j - 1 else j) ++
          (s.eraseIdx i).drop (if i < j then j - 1 else j)) := List.perm_middle
    _ = s.getD i 0 :: s.eraseIdx i := by rw [List.take_append_drop]
    _ = s.getD i 0 :: (s.take i ++ s.drop (i + 1)) := by
        rw [List.eraseIdx_eq_take_drop_succ]
    _ ~ s.take i ++ s.getD i 0 :: s.drop (i + 1) := List.perm_middle.symm
    _ = s := by
        rw [List.getD_eq_getElem _ _ hi, ← List.drop_eq_getElem_cons hi,
          List.take_append_drop]

theorem apply_relocate_head? {s : List ℤ} {i j : ℕ} (h1 : 1 ≤ i)
    (hi : i + 2 ≤ s.length) (hp : 1 ≤ (if i < j then j - 1 else j))
    (hp2 : (if i < j then j - 1 else j) + 1 ≤ s.length) :
    (apply_relocate s i j).head? = s.head? := by
  rw [apply_relocate_eq, head?_take_append hp
    (by rw [List.length_eraseIdx_of_lt (by omega)]; omega)]
  rw [List.eraseIdx_eq_take_drop_succ, head?_take_append h1 (by omega)]

theorem apply_relocate_getLast? {s : List ℤ} {i j : ℕ}
    (hi : i + 2 ≤ s.length) (hp2 : (if i < j then j - 1 else j) + 2 ≤ s.length) :
    (apply_relocate s i j).getLast? = s.getLast? := by
  rw [apply_relocate_eq]
  have hlen : (s.eraseIdx i).length = s.length - 1 :=
    List.length_eraseIdx_of_lt (by omega)
  have hne : (s.eraseIdx i).drop (if i < j then j - 1 else j) ≠ [] := by
    apply List.ne_nil_of_length_pos
    rw [List.length_drop, hlen]
    omega
  have hsplit : (s.eraseIdx i).take (if i < j then j - 1 else j) ++
      s.getD i 0 :: (s.eraseIdx i).drop (if i < j then j - 1 else j) =
      ((s.eraseIdx i).take (if i < j then j - 1 else j) ++ [s.getD i 0]) ++
        (s.eraseIdx i).drop (if i < j then j - 1 else j) := by
    simp
  rw [hsplit, List.getLast?_append_of_ne_nil _ hne,
    getLast?_drop_eq (by rw [hlen]; omega)]
  rw [List.eraseIdx_eq_take_drop_succ]
  have hdne : s.drop (i + 1) ≠ [] := by
    apply List.ne_nil_of_length_pos
    rw [List.length_drop]
    omega
  rw [List.getLast?_append_of_ne_nil _ hdne, getLast?_drop_eq (by omega)]

/-- Every candidate produced in one round is a permutation of the scanned
sequence preserving both endpoints. -/
theorem neighbors_spec {s c : List ℤ} (h : c ∈ neighbors s) :
    List.Perm c s ∧ c.head? = s.head? ∧ c.getLast? = s.getLast? := by
  rw [neighbors] at h
  rcases List.mem_append.1 h with h12 | h3
  · rcases List.mem_append.1 h12 with h2 | h2
    · rcases List.mem_map.1 h2 with ⟨⟨i, j⟩, hmem, rfl⟩
      obtain ⟨h1, hij, hlen⟩ := mem_two_opt.1 hmem
      exact ⟨apply_two_opt_perm (by omega), apply_two_opt_head? h1 (by omega),
        apply_two_opt_getLast? (by omega)⟩
    · rcases List.mem_map.1 h2 with ⟨⟨i, j⟩, hmem, rfl⟩
      obtain ⟨h1, hij, hlen⟩ := mem_swap_moves.1 hmem
      exact ⟨apply_swap_perm hij (by omega), apply_swap_head? h1 hij (by omega),
        apply_swap_getLast? hij (by omega)⟩
  · rcases List.mem_map.1 h3 with ⟨⟨i, j⟩, hmem, rfl⟩
    obtain ⟨h1, hil, hj1, hjl, hne1, hne2⟩ := mem_relocate_moves.1 hmem
    refine ⟨apply_relocate_perm (by omega), apply_relocate_head? h1 hil ?_ ?_,
      apply_relocate_getLast? hil ?_⟩ <;> split <;> omega

/-- A `.found` scan outcome: the candidate comes from the scanned list, it
evaluates successfully, and its distance strictly undercuts the incumbent. -/
theorem scanCands_found {inst : Instance} {dd : DistanceData} {bd : ℚ} :
    ∀ {l : List (List ℤ)} {c : List ℤ} {d : ℚ},
      scanCands inst dd bd l = .found c d →
      c ∈ l ∧ ∃ m, evaluate_route c inst dd = some m ∧
        m.total_distance = d ∧ d < bd := by
  intro l
  induction l with
  | nil => intro c d h; simp [scanCands] at h
  | cons a rest ih =>
    intro c d h
    rw [scanCands] at h
    split at h
    · exact absurd h (by simp)
    · rename_i m heval
      split at h
      · rename_i hlt
        cases h
        exact ⟨List.mem_cons_self a rest, m, heval, rfl, hlt⟩
      · obtain ⟨hmem, hrest⟩ := ih h
        exact ⟨List.mem_cons_of_mem a hmem, hrest⟩

/-- The accepted candidate of a round is an endpoint-preserving permutation
with a successful, strictly better evaluation. -/
theorem scanRound_found {inst : Instance} {dd : DistanceData} {s c : List ℤ}
    {bd d : ℚ} (h : scanRound inst dd s bd = .found c d) :
    (List.Perm c s ∧ c.head? = s.head? ∧ c.getLast? = s.getLast?) ∧
      ∃ m, evaluate_route c inst dd = some m ∧ m.total_distance = d ∧ d < bd := by
  obtain ⟨hmem, hrest⟩ := scanCands_found h
  exact ⟨neighbors_spec hmem, hrest⟩

/-- Across the improvement loop, the distance of the result never exceeds the
incumbent distance it started from. -/
theorem rvndLoop_le {inst : Instance} {dd : DistanceData} :
    ∀ (fuel : ℕ) {s best : List ℤ} {bd : ℚ},
      rvndLoop inst dd fuel s bd = some best →
      ∀ {ms : Metrics}, evaluate_route s inst dd = some ms →
        ms.total_distance = bd →
        ∃ mb, evaluate_route best inst dd = some mb ∧ mb.total_distance ≤ bd := by
  intro fuel
  induction fuel with
  | zero =>
    intro s best bd h ms hs hd
    cases h
    exact ⟨ms, hs, le_of_eq hd⟩
  | succ n ih =>
    intro s best bd h ms hs hd
    rw [rvndLoop] at h
    cases hscan : scanRound inst dd s bd with
    | err => rw [hscan] at h; exact absurd h (by simp)
    | exhausted =>
      rw [hscan] at h
      cases h
      exact ⟨ms, hs, le_of_eq hd⟩
    | found c d =>
      rw [hscan] at h
      obtain ⟨_, mc, hc, hcd, hdlt⟩ := scanRound_found hscan
      obtain ⟨mb, hmb, hble⟩ := ih h hc hcd
      exact ⟨mb, hmb, le_of_lt (lt_of_le_of_lt hble hdlt)⟩

/-- Across the improvement loop, the sequence stays an endpoint-preserving
permutation of the input. -/
theorem rvndLoop_perm {inst : Instance} {dd : DistanceData} :
    ∀ (fuel : ℕ) {s best : List ℤ} {bd : ℚ},
      rvndLoop inst dd fuel s bd = some best →
      List.Perm best s ∧ best.head? = s.head? ∧ best.getLast? = s.getLast? := by
  intro fuel
  induction fuel with
  | zero =>
    intro s best bd h
    cases h
    exact ⟨List.Perm.refl _, rfl, rfl⟩
  | succ n ih =>
    intro s best bd h
    rw [rvndLoop] at h
    cases hscan : scanRound inst dd s bd with
    | err => rw [hscan] at h; exact absurd h (by simp)
    | exhausted =>
      rw [hscan] at h
      cases h
      exact ⟨List.Perm.refl _, rfl, rfl⟩
    | found c d =>
      rw [hscan] at h
      obtain ⟨⟨hperm, hh, hl⟩, _⟩ := scanRound_found hscan
      obtain ⟨ihp, ihh, ihl⟩ := ih h
      exact ⟨ihp.trans hperm, ihh.trans hh, ihl.trans hl⟩

/-- Unfolding one accepted round of the loop. -/
theorem rvndLoop_shift (inst : Instance) (dd : DistanceData) (fuel : ℕ)
    {f : ℕ} (hf : f = fuel + 1) {s c : List ℤ} {bd d : ℚ}
    {r : Option (List ℤ)}
    (h1 : scanRound inst dd s bd = .found c d)
    (h2 : rvndLoop inst dd fuel c d = r) :
    rvndLoop inst dd f s bd = r := by
  subst hf
  rw [rvndLoop, h1]
  exact h2

/-- The metrics returned by `evaluate_route` carry the evaluated sequence. -/
theorem evaluate_route_sequence {s : List ℤ} {inst : Instance}
    {dd : DistanceData} {m : Metrics} (h : evaluate_route s inst dd = some m) :
    m.sequence = s := by
  cases s with
  | nil => exact absurd h (by simp [evaluate_route])
  | cons s0 rest =>
    rw [evaluate_route] at h
    cases hgo : evalGo inst dd s0 (inst.depot.time_window.tw_start +
        inst.depot.service_time) rest with
    | none => rw [hgo] at h; exact absurd h (by simp)
    | some r => rw [hgo] at h; cases h; rfl

/-- **C1**: for every input route whose sequence begins and ends with depot
id 0, every accepted move strictly decreases the evaluated `total_distance`
of the current best sequence, and the `total_distance` returned by
`rvnd_route` is at most the `total_distance` of the input sequence. -/
theorem rvnd_route_accepted_strictly_decrease_and_final_le {R : Type} (rng : R)
    (route : RouteIn) (inst : Instance) (dd : DistanceData) (m : Metrics)
    (h0 : route.sequence.head? = some 0)
    (hlast : route.sequence.getLast? = some 0)
    (hm : rvnd_route route inst dd rng = some m) :
    (∀ (s c : List ℤ) (bd d : ℚ), scanRound inst dd s bd = .found c d →
      ∃ mc, evaluate_route c inst dd = some mc ∧ mc.total_distance < bd) ∧
    ∀ mb, evaluate_route route.sequence inst dd = some mb →
      m.total_distance ≤ mb.total_distance := by
  constructor
  · intro s c bd d hscan
    obtain ⟨_, mc, hc, hcd, hlt⟩ := scanRound_found hscan
    exact ⟨mc, hc, by rw [hcd]; exact hlt⟩
  · intro mb hmb
    rw [rvnd_route] at hm
    split at hm
    · exact absurd hm (by simp)
    · rename_i baseline hbase
      split at hm
      · exact absurd hm (by simp)
      · rename_i best hloop
        obtain ⟨mb2, hmb2, hle⟩ := rvndLoop_le max_iterations hloop hbase rfl
        rw [hm] at hmb2
        cases hmb2
        have hbm : baseline = mb := by
          rw [hmb] at hbase
          exact (Option.some_inj.mp hbase).symm
        rw [← hbm]
        exact hle

/-- **C2 (amended)**: whenever the first `rvnd_route` run returns metrics
whose sequence admits no accepted move (a full scan round is exhausted —
guaranteed when the run stops before the 100-round cap), a second run on
that sequence accepts no move and returns the same sequence and metrics. -/
theorem rvnd_route_second_run_fixpoint_when_no_move {R1 R2 : Type}
    (rng1 : R1) (rng2 : R2) (route : RouteIn) (inst : Instance)
    (dd : DistanceData) (m : Metrics)
    (hm : rvnd_route route inst dd rng1 = some m)
    (hopt : scanRound inst dd m.sequence m.total_distance = .exhausted) :
    rvnd_route ⟨m.sequence⟩ inst dd rng2 = some m := by
  have hev : evaluate_route m.sequence inst dd = some m := by
    rw [rvnd_route] at hm
    split at hm
    · exact absurd hm (by simp)
    · rename_i baseline hbase
      split at hm
      · exact absurd hm (by simp)
      · rename_i best hloop
        rw [evaluate_route_sequence hm]
        exact hm
  have hloop1 : rvndLoop inst dd max_iterations m.sequence m.total_distance =
      some m.sequence := by
    show rvndLoop inst dd (99 + 1) m.sequence m.total_distance = some m.sequence
    rw [rvndLoop, hopt]
  rw [rvnd_route]
  simp only [hev, hloop1]

/-- **C10**: the pseudo-random source parameter of `rvnd_route` is never
consulted: runs with any two sources (of any types) coincide. -/
theorem rvnd_route_independent_of_rng {R1 R2 : Type} (route : RouteIn)
    (inst : Instance) (dd : DistanceData) (rng1 : R1) (rng2 : R2) :
    rvnd_route route inst dd rng1 = rvnd_route route inst dd rng2 := rfl

/-- **C8**: a move `(i, j)` generated by `relocate_moves` satisfies the
stated bounds, and `apply_relocate` places the popped element at index
`j - 1` of the result when `j > i` and at index `j` when `j < i`, leaving
the relative order of all other elements unchanged. -/
theorem relocate_move_placement (s : List ℤ) (i j : ℕ)
    (h : (i, j) ∈ relocate_moves s) :
    (1 ≤ i ∧ i + 2 ≤ s.length ∧ 1 ≤ j ∧ j + 1 ≤ s.length ∧ j ≠ i ∧ j ≠ i + 1) ∧
    (apply_relocate s i j)[if i < j then j - 1 else j]? = s[i]? ∧
    (apply_relocate s i j).eraseIdx (if i < j then j - 1 else j) =
      s.eraseIdx i := by
  obtain ⟨h1, hil, hj1, hjl, hne1, hne2⟩ := mem_relocate_moves.1 h
  have hi : i < s.length := by omega
  have hlen : (s.eraseIdx i).length = s.length - 1 :=
    List.length_eraseIdx_of_lt hi
  have hpos : (if i < j then j - 1 else j) ≤ (s.eraseIdx i).length := by
    rw [hlen]; split <;> omega
  have htlen : ((s.eraseIdx i).take (if i < j then j - 1 else j)).length =
      (if i < j then j - 1 else j) := by
    rw [List.length_take]; omega
  refine ⟨⟨h1, hil, hj1, hjl, hne1, hne2⟩, ?_, ?_⟩
  · rw [apply_relocate_eq, List.getElem?_append_right (by omega), htlen,
      Nat.sub_self]
    simp only [List.getElem?_cons_zero]
    rw [List.getD_eq_getElem _ _ hi, List.getElem?_eq_getElem hi]
  · rw [apply_relocate_eq, List.eraseIdx_append_of_length_le (by omega), htlen,
      Nat.sub_self]
    simp only [List.eraseIdx_cons_zero]
    exact List.take_append_drop _ _

/-- **C9**: every candidate examined by `rvnd_route` — the result of
`apply_two_opt`, `apply_swap` or `apply_relocate` on a generated move — is a
permutation of the sequence it came from with the same first and last
elements; hence the returned sequence is a permutation of the input route's
sequence and still begins and ends with depot id 0. -/
theorem moves_preserve_multiset_and_endpoints :
    (∀ (s : List ℤ) (i j : ℕ), (i, j) ∈ two_opt s →
      List.Perm (apply_two_opt s i j) s ∧
      (apply_two_opt s i j).head? = s.head? ∧
      (apply_two_opt s i j).getLast? = s.getLast?) ∧
    (∀ (s : List ℤ) (i j : ℕ), (i, j) ∈ swap_moves s →
      List.Perm (apply_swap s i j) s ∧
      (apply_swap s i j).head? = s.head? ∧
      (apply_swap s i j).getLast? = s.getLast?) ∧
    (∀ (s : List ℤ) (i j : ℕ), (i, j) ∈ relocate_moves s →
      List.Perm (apply_relocate s i j) s ∧
      (apply_relocate s i j).head? = s.head? ∧
      (apply_relocate s i j).getLast? = s.getLast?) ∧
    ∀ {R : Type} (rng : R) (route : RouteIn) (inst : Instance)
      (dd : DistanceData) (m : Metrics),
      rvnd_route route inst dd rng = some m →
      List.Perm m.sequence route.sequence ∧
      (route.sequence.head? = some 0 → m.sequence.head? = some 0) ∧
      (route.sequence.getLast? = some 0 → m.sequence.getLast? = some 0) := by
  refine ⟨?_, ?_, ?_, ?_⟩
  · intro s i j hmem
    obtain ⟨h1, hij, hlen⟩ := mem_two_opt.1 hmem
    exact ⟨apply_two_opt_perm (by omega), apply_two_opt_head? h1 (by omega),
      apply_two_opt_getLast? (by omega)⟩
  · intro s i j hmem
    obtain ⟨h1, hij, hlen⟩ := mem_swap_moves.1 hmem
    exact ⟨apply_swap_perm hij (by omega), apply_swap_head? h1 hij (by omega),
      apply_swap_getLast? hij (by omega)⟩
  · intro s i j hmem
    obtain ⟨h1, hil, hj1, hjl, hne1, hne2⟩ := mem_relocate_moves.1 hmem
    refine ⟨apply_relocate_perm (by omega), apply_relocate_head? h1 hil ?_ ?_,
      apply_relocate_getLast? hil ?_⟩ <;> split <;> omega
  · intro R rng route inst dd m hm
    rw [rvnd_route] at hm
    split at hm
    · exact absurd hm (by simp)
    · rename_i baseline hbase
      split at hm
      · exact absurd hm (by simp)
      · rename_i best hloop
        obtain ⟨hperm, hh, hl⟩ := rvndLoop_perm max_iterations hloop
        have hseq := evaluate_route_sequence hm
        subst hseq
        exact ⟨hperm, fun h => by rw [hh]; exact h, fun h => by rw [hl]; exact h⟩

/-! ## Concrete witness data -/

/-- Witness instance: depot with window 08:00–18:00 and two customers. -/
def wInst : Instance :=
  ⟨⟨0, 0, ⟨480, 1080⟩, 0⟩,
   [⟨1, 10, 0, 5, ⟨480, 540⟩, 10⟩, ⟨2, 0, 10, 5, ⟨480, 540⟩, 10⟩],
   [⟨"truck", 10, 1⟩]⟩

/-- Witness distance record for nodes 0, 1, 2. -/
def wDD : DistanceData :=
  ⟨[0, 1, 2],
   [[0, 10, 10], [10, 0, 14], [10, 14, 0]],
   [[0, 10, 10], [10, 0, 14], [10, 14, 0]]⟩

/-- Witness input route. -/
def wRoute : RouteIn := ⟨[0, 1, 2, 0]⟩

/-- The metrics `rvnd_route` returns on the witness input. -/
def wM : Metrics := (rvnd_route wRoute wInst wDD (0 : ℕ)).getD default

theorem rvnd_route_accepted_strictly_decrease_and_final_le_witness :
    wRoute.sequence.head? = some 0 ∧ wRoute.sequence.getLast? = some 0 ∧
    rvnd_route wRoute wInst wDD (0 : ℕ) = some wM ∧
    ((∀ (s c : List ℤ) (bd d : ℚ), scanRound wInst wDD s bd = .found c d →
        ∃ mc, evaluate_route c wInst wDD = some mc ∧ mc.total_distance < bd) ∧
      ∀ mb, evaluate_route wRoute.sequence wInst wDD = some mb →
        wM.total_distance ≤ mb.total_distance) :=
  ⟨rfl, rfl, rfl,
    rvnd_route_accepted_strictly_decrease_and_final_le (0 : ℕ) wRoute wInst wDD
      wM rfl rfl rfl⟩

theorem rvnd_route_second_run_fixpoint_when_no_move_witness :
    rvnd_route wRoute wInst wDD (0 : ℕ) = some wM ∧
    scanRound wInst wDD wM.sequence wM.total_distance = .exhausted ∧
    rvnd_route ⟨wM.sequence⟩ wInst wDD (1 : ℤ) = some wM :=
  ⟨rfl, by decide,
    rvnd_route_second_run_fixpoint_when_no_move (0 : ℕ) (1 : ℤ) wRoute wInst
      wDD wM rfl (by decide)⟩

theorem relocate_move_placement_witness :
    ((1, 3) ∈ relocate_moves wRoute.sequence) ∧
    ((1 ≤ 1 ∧ 1 + 2 ≤ wRoute.sequence.length ∧ 1 ≤ 3 ∧
        3 + 1 ≤ wRoute.sequence.length ∧ 3 ≠ 1 ∧ 3 ≠ 1 + 1) ∧
      (apply_relocate wRoute.sequence 1 3)[if 1 < 3 then 3 - 1 else 3]? =
        wRoute.sequence[1]? ∧
      (apply_relocate wRoute.sequence 1 3).eraseIdx
          (if 1 < 3 then 3 - 1 else 3) =
        wRoute.sequence.eraseIdx 1) :=
  ⟨by decide, relocate_move_placement wRoute.sequence 1 3 (by decide)⟩

theorem moves_preserve_multiset_and_endpoints_witness :
    ((1, 2) ∈ two_opt ([0, 1, 2, 3, 0] : List ℤ) ∧
      (List.Perm (apply_two_opt [0, 1, 2, 3, 0] 1 2) [0, 1, 2, 3, 0] ∧
        (apply_two_opt ([0, 1, 2, 3, 0] : List ℤ) 1 2).head? =
          ([0, 1, 2, 3, 0] : List ℤ).head? ∧
        (apply_two_opt ([0, 1, 2, 3, 0] : List ℤ) 1 2).getLast? =
          ([0, 1, 2, 3, 0] : List ℤ).getLast?)) ∧
    (rvnd_route wRoute wInst wDD (0 : ℕ) = some wM ∧
      (List.Perm wM.sequence wRoute.sequence ∧
        (wRoute.sequence.head? = some 0 → wM.sequence.head? = some 0) ∧
        (wRoute.sequence.getLast? = some 0 → wM.sequence.getLast? = some 0))) :=
  ⟨⟨by decide,
      moves_preserve_multiset_and_endpoints.1 [0, 1, 2, 3, 0] 1 2 (by decide)⟩,
    ⟨rfl,
      moves_preserve_multiset_and_endpoints.2.2.2 (0 : ℕ) wRoute wInst wDD wM
        rfl⟩⟩

/-! ## Per-stop recurrence of the evaluator -/

/-- A successful `evalStep` determines its lookups and every stop field. -/
theorem evalStep_spec {inst : Instance} {dd : DistanceData} {p n : ℤ} {t : ℚ}
    {q : ℚ × ℚ × ℚ × Stop} (h : evalStep inst dd p n t = some q) :
    ∃ travel distance tw_start tw_end service,
      matrix_lookup dd dd.travel_time_matrix p n = some travel ∧
      matrix_lookup dd dd.distance_matrix p n = some distance ∧
      node_tw_service inst n = some (tw_start, tw_end, service) ∧
      q = (distance, travel, service,
        ⟨n, max tw_start (t + travel),
         minutes_to_clock (max tw_start (t + travel)),
         max tw_start (t + travel) + service,
         minutes_to_clock (max tw_start (t + travel) + service),
         max 0 (tw_start - (t + travel)),
         max 0 (max tw_start (t + travel) - tw_end)⟩) := by
  rw [evalStep] at h
  split at h
  · exact absurd h (by simp)
  rename_i travel htr
  split at h
  · exact absurd h (by simp)
  rename_i distance hdi
  split at h
  · exact absurd h (by simp)
  rename_i tws htw
  cases h
  exact ⟨travel, distance, tws.1, tws.2.1, tws.2.2, htr, hdi, htw, rfl⟩

/-- The stop list produced by `evalGo` follows the chronological step
recurrence: stop `k` is the `evalStep` of node `k` from the previous node
and previous departure time. -/
theorem evalGo_stops {inst : Instance} {dd : DistanceData} :
    ∀ (rest : List ℤ) (prev : ℤ) (t : ℚ)
      (r : List Stop × ℚ × ℚ × ℚ × ℚ),
      evalGo inst dd prev t rest = some r →
      r.1.length = rest.length ∧
      ∀ k, k < rest.length →
        ∃ d tr sv stop,
          evalStep inst dd (if k = 0 then prev else rest.getD (k - 1) 0)
            (rest.getD k 0)
            (if k = 0 then t else (r.1.getD (k - 1) default).departure) =
            some (d, tr, sv, stop) ∧
          r.1[k]? = some stop ∧ stop.node_id = rest.getD k 0 := by
  intro rest
  induction rest with
  | nil =>
    intro prev t r h
    cases h
    exact ⟨rfl, fun k hk => absurd hk (by simp)⟩
  | cons next rest2 ih =>
    intro prev t r h
    rw [evalGo] at h
    split at h
    · exact absurd h (by simp)
    rename_i step hstep
    split at h
    · exact absurd h (by simp)
    rename_i tail htail
    cases h
    obtain ⟨hlen, hrec⟩ := ih next step.2.2.2.departure tail htail
    constructor
    · simp [hlen]
    · intro k hk
      match k with
      | 0 =>
        obtain ⟨travel, distance, tw_start, tw_end, service, htr, hdi, htw, hq⟩ :=
          evalStep_spec hstep
        refine ⟨step.1, step.2.1, step.2.2.1, step.2.2.2, ?_, by simp, ?_⟩
        · simpa using hstep
        · rw [hq]
          simp
      | k2 + 1 =>
        have hk2 : k2 < rest2.length := by
          simpa using hk
        obtain ⟨d, tr, sv, stop, hstep2, hget, hnid⟩ := hrec k2 hk2
        refine ⟨d, tr, sv, stop, ?_, ?_, ?_⟩
        · match k2 with
          | 0 => simpa using hstep2
          | k3 + 1 => simpa using hstep2
        · simpa using hget
        · simpa using hnid

/-- **C4**: for every sequence starting at depot id 0 that evaluates
successfully, each stop after the first satisfies the chronological rules:
raw = previous departure + travel time (looked up through the id→index
map), arrival = max(window start, raw), wait = window start − raw when the
vehicle is early and 0 otherwise, violation = max(0, arrival − window end)
with no clamping of the arrival, and departure = arrival + service time. -/
theorem evaluate_route_stop_recurrence (seq : List ℤ) (inst : Instance)
    (dd : DistanceData) (m : Metrics) (h0 : seq.head? = some 0)
    (hm : evaluate_route seq inst dd = some m) :
    m.stops.length = seq.length ∧
    ∀ k, k + 1 < m.stops.length →
      ∃ prev cur nid travel tw_start tw_end service,
        m.stops[k]? = some prev ∧
        m.stops[k + 1]? = some cur ∧
        seq[k + 1]? = some nid ∧
        cur.node_id = nid ∧
        matrix_lookup dd dd.travel_time_matrix prev.node_id nid = some travel ∧
        node_tw_service inst nid = some (tw_start, tw_end, service) ∧
        cur.arrival = max tw_start (prev.departure + travel) ∧
        (prev.departure + travel < tw_start →
          cur.wait = tw_start - (prev.departure + travel)) ∧
        (tw_start ≤ prev.departure + travel → cur.wait = 0) ∧
        cur.violation = max 0 (cur.arrival - tw_end) ∧
        cur.departure = cur.arrival + service := by
  match seq, h0 with
  | s0 :: rest, h0 =>
  have hs0 : s0 = 0 := by simpa using h0
  subst hs0
  rw [evaluate_route] at hm
  cases hgo : evalGo inst dd 0 (inst.depot.time_window.tw_start +
      inst.depot.service_time) rest with
  | none => rw [hgo] at hm; exact absurd hm (by simp)
  | some r =>
    rw [hgo] at hm
    cases hm
    obtain ⟨hlen, hrec⟩ := evalGo_stops rest 0 _ r hgo
    constructor
    · simp [hlen]
    · intro k hk
      have hkr : k < rest.length := by
        simp only [List.length_cons] at hk
        simp only [List.length_cons, hlen] at hk ⊢
        omega
      obtain ⟨d, tr, sv, stop, hstep, hget, hnid⟩ := hrec k hkr
      obtain ⟨travel, distance, tw_start, tw_end, service, htr, hdi, htw, hq⟩ :=
        evalStep_spec hstep
      have hstop : stop =
          ⟨rest.getD k 0,
           max tw_start ((if k = 0 then inst.depot.time_window.tw_start +
               inst.depot.service_time
             else (r.1.getD (k - 1) default).departure) + travel),
           minutes_to_clock (max tw_start ((if k = 0 then
               inst.depot.time_window.tw_start + inst.depot.service_time
             else (r.1.getD (k - 1) default).departure) + travel)),
           max tw_start ((if k = 0 then inst.depot.time_window.tw_start +
               inst.depot.service_time
             else (r.1.getD (k - 1) default).departure) + travel) + service,
           minutes_to_clock (max tw_start ((if k = 0 then
               inst.depot.time_window.tw_start + inst.depot.service_time
             else (r.1.getD (k - 1) default).departure) + travel) + service),
           max 0 (tw_start - ((if k = 0 then inst.depot.time_window.tw_start +
               inst.depot.service_time
             else (r.1.getD (k - 1) default).departure) + travel)),
           max 0 (max tw_start ((if k = 0 then
               inst.depot.time_window.tw_start + inst.depot.service_time
             else (r.1.getD (k - 1) default).departure) + travel) - tw_end)⟩ := by
        have h4 := congrArg (fun x => x.2.2.2) hq
        simpa using h4
      have hseqk : rest[k]? = some (rest.getD k 0) := by
        rw [List.getD_eq_getElem _ _ hkr]
        exact List.getElem?_eq_getElem hkr
      rcases Nat.eq_zero_or_pos k with rfl | hpos
      · have hstop0 : stop =
            ⟨rest.getD 0 0,
             max tw_start ((inst.depot.time_window.tw_start +
               inst.depot.service_time) + travel),
             minutes_to_clock (max tw_start ((inst.depot.time_window.tw_start +
               inst.depot.service_time) + travel)),
             max tw_start ((inst.depot.time_window.tw_start +
               inst.depot.service_time) + travel) + service,
             minutes_to_clock (max tw_start ((inst.depot.time_window.tw_start +
               inst.depot.service_time) + travel) + service),
             max 0 (tw_start - ((inst.depot.time_window.tw_start +
               inst.depot.service_time) + travel)),
             max 0 (max tw_start ((inst.depot.time_window.tw_start +
               inst.depot.service_time) + travel) - tw_end)⟩ := by
          simpa using hstop
        refine ⟨⟨0, inst.depot.time_window.tw_start,
          minutes_to_clock inst.depot.time_window.tw_start,
          inst.depot.time_window.tw_start + inst.depot.service_time,
          minutes_to_clock (inst.depot.time_window.tw_start +
            inst.depot.service_time), 0, 0⟩,
          stop, rest.getD 0 0, travel, tw_start, tw_end, service,
          by simp, by simpa using hget, by simpa using hseqk, hnid, ?_, htw,
          ?_, ?_, ?_, ?_, ?_⟩
        · simpa using htr
        · rw [hstop0]
        · intro hlt
          simp only at hlt
          rw [hstop0]
          simp only
          rw [max_eq_right (by linarith)]
        · intro hle
          simp only at hle
          rw [hstop0]
          simp only
          rw [max_eq_left (by linarith)]
        · rw [hstop0]
        · rw [hstop0]
      · -- k ≥ 1: the previous stop is entry k - 1 of the tail stop list
        have hkne : ¬ k = 0 := by omega
        have hk1 : k - 1 < rest.length := by omega
        obtain ⟨d2, tr2, sv2, stopPrev, hstepPrev, hgetPrev, hnidPrev⟩ :=
          hrec (k - 1) hk1
        have hk1r : k - 1 < r.1.length := by rw [hlen]; exact hk1
        have hgd : r.1.getD (k - 1) default = stopPrev := by
          rw [List.getD_eq_getElem _ _ hk1r]
          have hge := List.getElem?_eq_getElem hk1r
          rw [hge] at hgetPrev
          exact Option.some_inj.mp hgetPrev
        have hstopn : stop =
            ⟨rest.getD k 0,
             max tw_start (stopPrev.departure + travel),
             minutes_to_clock (max tw_start (stopPrev.departure + travel)),
             max tw_start (stopPrev.departure + travel) + service,
             minutes_to_clock (max tw_start (stopPrev.departure + travel) +
               service),
             max 0 (tw_start - (stopPrev.departure + travel)),
             max 0 (max tw_start (stopPrev.departure + travel) - tw_end)⟩ := by
          rw [hstop]
          simp [hkne, hgetPrev]
        refine ⟨stopPrev, stop, rest.getD k 0, travel, tw_start, tw_end,
          service, ?_, by simpa using hget, by simpa using hseqk, hnid, ?_,
          htw, ?_, ?_, ?_, ?_, ?_⟩
        · have hcons : (⟨0, inst.depot.time_window.tw_start,
              minutes_to_clock inst.depot.time_window.tw_start,
              inst.depot.time_window.tw_start + inst.depot.service_time,
              minutes_to_clock (inst.depot.time_window.tw_start +
                inst.depot.service_time), 0, 0⟩ :: r.1)[k]? = r.1[k - 1]? := by
            match k, hpos with
            | k2 + 1, _ => simp
          rw [hcons]
          exact hgetPrev
        · rw [if_neg hkne] at htr
          rw [hnidPrev]
          exact htr
        · rw [hstopn]
        · intro hlt
          rw [hstopn]
          simp only
          rw [max_eq_right (by linarith)]
        · intro hle
          rw [hstopn]
          simp only
          rw [max_eq_left (by linarith)]
        · rw [hstopn]
        · rw [hstopn]

/-- The metrics `evaluate_route` returns on the witness input sequence. -/
def wEM : Metrics := (evaluate_route wRoute.sequence wInst wDD).getD default

theorem evaluate_route_stop_recurrence_witness :
    wRoute.sequence.head? = some 0 ∧
    evaluate_route wRoute.sequence wInst wDD = some wEM ∧
    (wEM.stops.length = wRoute.sequence.length ∧
      ∀ k, k + 1 < wEM.stops.length →
        ∃ prev cur nid travel tw_start tw_end service,
          wEM.stops[k]? = some prev ∧
          wEM.stops[k + 1]? = some cur ∧
          wRoute.sequence[k + 1]? = some nid ∧
          cur.node_id = nid ∧
          matrix_lookup wDD wDD.travel_time_matrix prev.node_id nid =
            some travel ∧
          node_tw_service wInst nid = some (tw_start, tw_end, service) ∧
          cur.arrival = max tw_start (prev.departure + travel) ∧
          (prev.departure + travel < tw_start →
            cur.wait = tw_start - (prev.departure + travel)) ∧
          (tw_start ≤ prev.departure + travel → cur.wait = 0) ∧
          cur.violation = max 0 (cur.arrival - tw_end) ∧
          cur.departure = cur.arrival + service) :=
  ⟨rfl, rfl,
    evaluate_route_stop_recurrence wRoute.sequence wInst wDD wEM rfl rfl⟩

/-! ## Concrete counterexample data for the second-run claim

A five-customer instance (wide time windows, zero service and travel
times) on which the first-improvement descent accepts more than 100
moves, so the first run stops at the iteration cap with an improving
move still available. -/

/-- Distance record of the long-descent instance. -/
def cexDD : DistanceData :=
  ⟨[0, 1, 2, 3, 4, 5],
   [[0, 193, 124, 481, 129, 278],
    [482, 0, 16, 506, 72, 78],
    [396, 48, 0, 258, 14, 148],
    [17, 213, 174, 0, 249, 311],
    [59, 112, 74, 46, 0, 69],
    [447, 211, 315, 55, 292, 0]],
   [[0, 0, 0, 0, 0, 0],
    [0, 0, 0, 0, 0, 0],
    [0, 0, 0, 0, 0, 0],
    [0, 0, 0, 0, 0, 0],
    [0, 0, 0, 0, 0, 0],
    [0, 0, 0, 0, 0, 0]]⟩

/-- Instance of the long-descent counterexample. -/
def cexInst : Instance :=
  ⟨⟨0, 0, ⟨0, 1000000⟩, 0⟩,
   [⟨1, 0, 0, 0, ⟨0, 1000000⟩, 0⟩,
    ⟨2, 0, 0, 0, ⟨0, 1000000⟩, 0⟩,
    ⟨3, 0, 0, 0, ⟨0, 1000000⟩, 0⟩,
    ⟨4, 0, 0, 0, ⟨0, 1000000⟩, 0⟩,
    ⟨5, 0, 0, 0, ⟨0, 1000000⟩, 0⟩],
   [⟨"truck", 1000000, 1⟩]⟩

/-- State after 0 accepted moves of the descent. -/
def cexS0 : List ℤ := [0, 4, 2, 1, 5, 2, 2, 1, 3, 1, 3, 1, 3, 1, 3, 3, 1, 0]

/-- State after 100 accepted moves of the descent. -/
def cexS100 : List ℤ := [0, 2, 1, 2, 4, 2, 1, 1, 1, 1, 5, 3, 3, 3, 3, 3, 1, 0]

/-- State after 101 accepted moves of the descent. -/
def cexS101 : List ℤ := [0, 4, 2, 1, 2, 2, 1, 1, 1, 1, 5, 3, 3, 3, 3, 3, 1, 0]

/-! The accepted first-improvement move of each of the first 101
rounds of the descent: round `k` moves from the state after `k`
accepted moves to the next, strictly decreasing `total_distance`. -/
set_option maxRecDepth 200000 in
theorem cexStep0 : scanRound cexInst cexDD cexS0 4050 = .found [0, 2, 4, 1, 5, 2, 2, 1, 3, 1, 3, 1, 3, 1, 3, 3, 1, 0] 4049 := rfl

set_option maxRecDepth 200000 in
theorem cexStep1 : scanRound cexInst cexDD [0, 2, 4, 1, 5, 2, 2, 1, 3, 1, 3, 1, 3, 1, 3, 3, 1, 0] 4049 = .found [0, 5, 1, 4, 2, 2, 2, 1, 3, 1, 3, 1, 3, 1, 3, 3, 1, 0] 4041 := rfl

set_option maxRecDepth 200000 in
theorem cexStep2 : scanRound cexInst cexDD [0, 5, 1, 4, 2, 2, 2, 1, 3, 1, 3, 1, 3, 1, 3, 3, 1, 0] 4041 = .found [0, 4, 1, 5, 2, 2, 2, 1, 3, 1, 3, 1, 3, 1, 3, 3, 1, 0] 4040 := rfl

set_option maxRecDepth 200000 in
theorem cexStep3 : scanRound cexInst cexDD [0, 4, 1, 5, 2, 2, 2, 1, 3, 1, 3, 1, 3, 1, 3, 3, 1, 0] 4040 = .found [0, 2, 5, 1, 4, 2, 2, 1, 3, 1, 3, 1, 3, 1, 3, 3, 1, 0] 4035 := rfl

set_option maxRecDepth 200000 in
theorem cexStep4 : scanRound cexInst cexDD [0, 2, 5, 1, 4, 2, 2, 1, 3, 1, 3, 1, 3, 1, 3, 3, 1, 0] 4035 = .found [0, 1, 2, 2, 4, 1, 5, 2, 3, 1, 3, 1, 3, 1, 3, 3, 1, 0] 3838 := rfl

set_option maxRecDepth 200000 in
theorem cexStep5 : scanRound cexInst cexDD [0, 1, 2, 2, 4, 1, 5, 2, 3, 1, 3, 1, 3, 1, 3, 3, 1, 0] 3838 = .found [0, 2, 1, 2, 4, 1, 5, 2, 3, 1, 3, 1, 3, 1, 3, 3, 1, 0] 3817 := rfl

set_option maxRecDepth 200000 in
theorem cexStep6 : scanRound cexInst cexDD [0, 2, 1, 2, 4, 1, 5, 2, 3, 1, 3, 1, 3, 1, 3, 3, 1, 0] 3817 = .found [0, 5, 1, 4, 2, 1, 2, 2, 3, 1, 3, 1, 3, 1, 3, 3, 1, 0] 3809 := rfl

set_option maxRecDepth 200000 in
theorem cexStep7 : scanRound cexInst cexDD [0, 5, 1, 4, 2, 1, 2, 2, 3, 1, 3, 1, 3, 1, 3, 3, 1, 0] 3809 = .found [0, 4, 1, 5, 2, 1, 2, 2, 3, 1, 3, 1, 3, 1, 3, 3, 1, 0] 3808 := rfl

set_option maxRecDepth 200000 in
theorem cexStep8 : scanRound cexInst cexDD [0, 4, 1, 5, 2, 1, 2, 2, 3, 1, 3, 1, 3, 1, 3, 3, 1, 0] 3808 = .found [0, 2, 5, 1, 4, 1, 2, 2, 3, 1, 3, 1, 3, 1, 3, 3, 1, 0] 3793 := rfl

set_option maxRecDepth 200000 in
theorem cexStep9 : scanRound cexInst cexDD [0, 2, 5, 1, 4, 1, 2, 2, 3, 1, 3, 1, 3, 1, 3, 3, 1, 0] 3793 = .found [0, 2, 1, 5, 4, 1, 2, 2, 3, 1, 3, 1, 3, 1, 3, 3, 1, 0] 3780 := rfl

set_option maxRecDepth 200000 in
theorem cexStep10 : scanRound cexInst cexDD [0, 2, 1, 5, 4, 1, 2, 2, 3, 1, 3, 1, 3, 1, 3, 3, 1, 0] 3780 = .found [0, 5, 1, 2, 4, 1, 2, 2, 3, 1, 3, 1, 3, 1, 3, 3, 1, 0] 3757 := rfl

set_option maxRecDepth 200000 in
theorem cexStep11 : scanRound cexInst cexDD [0, 5, 1, 2, 4, 1, 2, 2, 3, 1, 3, 1, 3, 1, 3, 3, 1, 0] 3757 = .found [0, 4, 2, 1, 5, 1, 2, 2, 3, 1, 3, 1, 3, 1, 3, 3, 1, 0] 3666 := rfl

set_option maxRecDepth 200000 in
theorem cexStep12 : scanRound cexInst cexDD [0, 4, 2, 1, 5, 1, 2, 2, 3, 1, 3, 1, 3, 1, 3, 3, 1, 0] 3666 = .found [0, 2, 4, 1, 5, 1, 2, 2, 3, 1, 3, 1, 3, 1, 3, 3, 1, 0] 3665 := rfl

set_option maxRecDepth 200000 in
theorem cexStep13 : scanRound cexInst cexDD [0, 2, 4, 1, 5, 1, 2, 2, 3, 1, 3, 1, 3, 1, 3, 3, 1, 0] 3665 = .found [0, 2, 1, 4, 5, 1, 2, 2, 3, 1, 3, 1, 3, 1, 3, 3, 1, 0] 3650 := rfl

set_option maxRecDepth 200000 in
theorem cexStep14 : scanRound cexInst cexDD [0, 2, 1, 4, 5, 1, 2, 2, 3, 1, 3, 1, 3, 1, 3, 3, 1, 0] 3650 = .found [0, 1, 2, 4, 5, 1, 2, 2, 3, 1, 3, 1, 3, 1, 3, 3, 1, 0] 3629 := rfl

set_option maxRecDepth 200000 in
theorem cexStep15 : scanRound cexInst cexDD [0, 1, 2, 4, 5, 1, 2, 2, 3, 1, 3, 1, 3, 1, 3, 3, 1, 0] 3629 = .found [0, 1, 2, 2, 2, 1, 5, 4, 3, 1, 3, 1, 3, 1, 3, 3, 1, 0] 3525 := rfl

set_option maxRecDepth 200000 in
theorem cexStep16 : scanRound cexInst cexDD [0, 1, 2, 2, 2, 1, 5, 4, 3, 1, 3, 1, 3, 1, 3, 3, 1, 0] 3525 = .found [0, 2, 1, 2, 2, 1, 5, 4, 3, 1, 3, 1, 3, 1, 3, 3, 1, 0] 3504 := rfl

set_option maxRecDepth 200000 in
theorem cexStep17 : scanRound cexInst cexDD [0, 2, 1, 2, 2, 1, 5, 4, 3, 1, 3, 1, 3, 1, 3, 3, 1, 0] 3504 = .found [0, 5, 1, 2, 2, 1, 2, 4, 3, 1, 3, 1, 3, 1, 3, 3, 1, 0] 3481 := rfl

set_option maxRecDepth 200000 in
theorem cexStep18 : scanRound cexInst cexDD [0, 5, 1, 2, 2, 1, 2, 4, 3, 1, 3, 1, 3, 1, 3, 3, 1, 0] 3481 = .found [0, 2, 2, 1, 5, 1, 2, 4, 3, 1, 3, 1, 3, 1, 3, 3, 1, 0] 3389 := rfl

set_option maxRecDepth 200000 in
theorem cexStep19 : scanRound cexInst cexDD [0, 2, 2, 1, 5, 1, 2, 4, 3, 1, 3, 1, 3, 1, 3, 3, 1, 0] 3389 = .found [0, 2, 2, 1, 4, 2, 1, 5, 3, 1, 3, 1, 3, 1, 3, 3, 1, 0] 3351 := rfl

set_option maxRecDepth 200000 in
theorem cexStep20 : scanRound cexInst cexDD [0, 2, 2, 1, 4, 2, 1, 5, 3, 1, 3, 1, 3, 1, 3, 3, 1, 0] 3351 = .found [0, 1, 2, 2, 4, 2, 1, 5, 3, 1, 3, 1, 3, 1, 3, 3, 1, 0] 3330 := rfl

set_option maxRecDepth 200000 in
theorem cexStep21 : scanRound cexInst cexDD [0, 1, 2, 2, 4, 2, 1, 5, 3, 1, 3, 1, 3, 1, 3, 3, 1, 0] 3330 = .found [0, 2, 1, 2, 4, 2, 1, 5, 3, 1, 3, 1, 3, 1, 3, 3, 1, 0] 3309 := rfl

set_option maxRecDepth 200000 in
theorem cexStep22 : scanRound cexInst cexDD [0, 2, 1, 2, 4, 2, 1, 5, 3, 1, 3, 1, 3, 1, 3, 3, 1, 0] 3309 = .found [0, 4, 2, 1, 2, 2, 1, 5, 3, 1, 3, 1, 3, 1, 3, 3, 1, 0] 3300 := rfl

set_option maxRecDepth 200000 in
theorem cexStep23 : scanRound cexInst cexDD [0, 4, 2, 1, 2, 2, 1, 5, 3, 1, 3, 1, 3, 1, 3, 3, 1, 0] 3300 = .found [0, 2, 4, 1, 2, 2, 1, 5, 3, 1, 3, 1, 3, 1, 3, 3, 1, 0] 3299 := rfl

set_option maxRecDepth 200000 in
theorem cexStep24 : scanRound cexInst cexDD [0, 2, 4, 1, 2, 2, 1, 5, 3, 1, 3, 1, 3, 1, 3, 3, 1, 0] 3299 = .found [0, 2, 1, 2, 2, 1, 4, 5, 3, 1, 3, 1, 3, 1, 3, 3, 1, 0] 3284 := rfl

set_option maxRecDepth 200000 in
theorem cexStep25 : scanRound cexInst cexDD [0, 2, 1, 2, 2, 1, 4, 5, 3, 1, 3, 1, 3, 1, 3, 3, 1, 0] 3284 = .found [0, 1, 2, 2, 1, 2, 4, 5, 3, 1, 3, 1, 3, 1, 3, 3, 1, 0] 3263 := rfl

set_option maxRecDepth 200000 in
theorem cexStep26 : scanRound cexInst cexDD [0, 1, 2, 2, 1, 2, 4, 5, 3, 1, 3, 1, 3, 1, 3, 3, 1, 0] 3263 = .found [0, 2, 1, 2, 1, 2, 4, 5, 3, 1, 3, 1, 3, 1, 3, 3, 1, 0] 3242 := rfl

set_option maxRecDepth 200000 in
theorem cexStep27 : scanRound cexInst cexDD [0, 2, 1, 2, 1, 2, 4, 5, 3, 1, 3, 1, 3, 1, 3, 3, 1, 0] 3242 = .found [0, 2, 2, 1, 1, 2, 4, 5, 3, 1, 3, 1, 3, 1, 3, 3, 1, 0] 3178 := rfl

set_option maxRecDepth 200000 in
theorem cexStep28 : scanRound cexInst cexDD [0, 2, 2, 1, 1, 2, 4, 5, 3, 1, 3, 1, 3, 1, 3, 3, 1, 0] 3178 = .found [0, 2, 2, 1, 1, 2, 4, 5, 1, 3, 3, 1, 3, 1, 3, 3, 1, 0] 3121 := rfl

set_option maxRecDepth 200000 in
theorem cexStep29 : scanRound cexInst cexDD [0, 2, 2, 1, 1, 2, 4, 5, 1, 3, 3, 1, 3, 1, 3, 3, 1, 0] 3121 = .found [0, 1, 5, 4, 2, 1, 1, 2, 2, 3, 3, 1, 3, 1, 3, 3, 1, 0] 3092 := rfl

set_option maxRecDepth 200000 in
theorem cexStep30 : scanRound cexInst cexDD [0, 1, 5, 4, 2, 1, 1, 2, 2, 3, 3, 1, 3, 1, 3, 3, 1, 0] 3092 = .found [0, 5, 1, 4, 2, 1, 1, 2, 2, 3, 3, 1, 3, 1, 3, 3, 1, 0] 3090 := rfl

set_option maxRecDepth 200000 in
theorem cexStep31 : scanRound cexInst cexDD [0, 5, 1, 4, 2, 1, 1, 2, 2, 3, 3, 1, 3, 1, 3, 3, 1, 0] 3090 = .found [0, 4, 1, 5, 2, 1, 1, 2, 2, 3, 3, 1, 3, 1, 3, 3, 1, 0] 3089 := rfl

set_option maxRecDepth 200000 in
theorem cexStep32 : scanRound cexInst cexDD [0, 4, 1, 5, 2, 1, 1, 2, 2, 3, 3, 1, 3, 1, 3, 3, 1, 0] 3089 = .found [0, 2, 5, 1, 4, 1, 1, 2, 2, 3, 3, 1, 3, 1, 3, 3, 1, 0] 3074 := rfl

set_option maxRecDepth 200000 in
theorem cexStep33 : scanRound cexInst cexDD [0, 2, 5, 1, 4, 1, 1, 2, 2, 3, 3, 1, 3, 1, 3, 3, 1, 0] 3074 = .found [0, 2, 1, 5, 4, 1, 1, 2, 2, 3, 3, 1, 3, 1, 3, 3, 1, 0] 3061 := rfl

set_option maxRecDepth 200000 in
theorem cexStep34 : scanRound cexInst cexDD [0, 2, 1, 5, 4, 1, 1, 2, 2, 3, 3, 1, 3, 1, 3, 3, 1, 0] 3061 = .found [0, 5, 1, 2, 4, 1, 1, 2, 2, 3, 3, 1, 3, 1, 3, 3, 1, 0] 3038 := rfl

set_option maxRecDepth 200000 in
theorem cexStep35 : scanRound cexInst cexDD [0, 5, 1, 2, 4, 1, 1, 2, 2, 3, 3, 1, 3, 1, 3, 3, 1, 0] 3038 = .found [0, 4, 2, 1, 5, 1, 1, 2, 2, 3, 3, 1, 3, 1, 3, 3, 1, 0] 2947 := rfl

set_option maxRecDepth 200000 in
theorem cexStep36 : scanRound cexInst cexDD [0, 4, 2, 1, 5, 1, 1, 2, 2, 3, 3, 1, 3, 1, 3, 3, 1, 0] 2947 = .found [0, 2, 4, 1, 5, 1, 1, 2, 2, 3, 3, 1, 3, 1, 3, 3, 1, 0] 2946 := rfl

set_option maxRecDepth 200000 in
theorem cexStep37 : scanRound cexInst cexDD [0, 2, 4, 1, 5, 1, 1, 2, 2, 3, 3, 1, 3, 1, 3, 3, 1, 0] 2946 = .found [0, 2, 1, 4, 5, 1, 1, 2, 2, 3, 3, 1, 3, 1, 3, 3, 1, 0] 2931 := rfl

set_option maxRecDepth 200000 in
theorem cexStep38 : scanRound cexInst cexDD [0, 2, 1, 4, 5, 1, 1, 2, 2, 3, 3, 1, 3, 1, 3, 3, 1, 0] 2931 = .found [0, 1, 2, 4, 5, 1, 1, 2, 2, 3, 3, 1, 3, 1, 3, 3, 1, 0] 2910 := rfl

set_option maxRecDepth 200000 in
theorem cexStep39 : scanRound cexInst cexDD [0, 1, 2, 4, 5, 1, 1, 2, 2, 3, 3, 1, 3, 1, 3, 3, 1, 0] 2910 = .found [0, 1, 2, 2, 2, 1, 1, 5, 4, 3, 3, 1, 3, 1, 3, 3, 1, 0] 2806 := rfl

set_option maxRecDepth 200000 in
theorem cexStep40 : scanRound cexInst cexDD [0, 1, 2, 2, 2, 1, 1, 5, 4, 3, 3, 1, 3, 1, 3, 3, 1, 0] 2806 = .found [0, 2, 1, 2, 2, 1, 1, 5, 4, 3, 3, 1, 3, 1, 3, 3, 1, 0] 2785 := rfl

set_option maxRecDepth 200000 in
theorem cexStep41 : scanRound cexInst cexDD [0, 2, 1, 2, 2, 1, 1, 5, 4, 3, 3, 1, 3, 1, 3, 3, 1, 0] 2785 = .found [0, 5, 1, 1, 2, 2, 1, 2, 4, 3, 3, 1, 3, 1, 3, 3, 1, 0] 2762 := rfl

set_option maxRecDepth 200000 in
theorem cexStep42 : scanRound cexInst cexDD [0, 5, 1, 1, 2, 2, 1, 2, 4, 3, 3, 1, 3, 1, 3, 3, 1, 0] 2762 = .found [0, 1, 5, 1, 2, 2, 1, 2, 4, 3, 3, 1, 3, 1, 3, 3, 1, 0] 2755 := rfl

set_option maxRecDepth 200000 in
theorem cexStep43 : scanRound cexInst cexDD [0, 1, 5, 1, 2, 2, 1, 2, 4, 3, 3, 1, 3, 1, 3, 3, 1, 0] 2755 = .found [0, 2, 1, 5, 1, 2, 1, 2, 4, 3, 3, 1, 3, 1, 3, 3, 1, 0] 2734 := rfl

set_option maxRecDepth 200000 in
theorem cexStep44 : scanRound cexInst cexDD [0, 2, 1, 5, 1, 2, 1, 2, 4, 3, 3, 1, 3, 1, 3, 3, 1, 0] 2734 = .found [0, 2, 2, 1, 5, 1, 1, 2, 4, 3, 3, 1, 3, 1, 3, 3, 1, 0] 2670 := rfl

set_option maxRecDepth 200000 in
theorem cexStep45 : scanRound cexInst cexDD [0, 2, 2, 1, 5, 1, 1, 2, 4, 3, 3, 1, 3, 1, 3, 3, 1, 0] 2670 = .found [0, 2, 2, 1, 4, 2, 1, 1, 5, 3, 3, 1, 3, 1, 3, 3, 1, 0] 2632 := rfl

set_option maxRecDepth 200000 in
theorem cexStep46 : scanRound cexInst cexDD [0, 2, 2, 1, 4, 2, 1, 1, 5, 3, 3, 1, 3, 1, 3, 3, 1, 0] 2632 = .found [0, 1, 2, 2, 4, 2, 1, 1, 5, 3, 3, 1, 3, 1, 3, 3, 1, 0] 2611 := rfl

set_option maxRecDepth 200000 in
theorem cexStep47 : scanRound cexInst cexDD [0, 1, 2, 2, 4, 2, 1, 1, 5, 3, 3, 1, 3, 1, 3, 3, 1, 0] 2611 = .found [0, 2, 1, 2, 4, 2, 1, 1, 5, 3, 3, 1, 3, 1, 3, 3, 1, 0] 2590 := rfl

set_option maxRecDepth 200000 in
theorem cexStep48 : scanRound cexInst cexDD [0, 2, 1, 2, 4, 2, 1, 1, 5, 3, 3, 1, 3, 1, 3, 3, 1, 0] 2590 = .found [0, 4, 2, 1, 2, 2, 1, 1, 5, 3, 3, 1, 3, 1, 3, 3, 1, 0] 2581 := rfl

set_option maxRecDepth 200000 in
theorem cexStep49 : scanRound cexInst cexDD [0, 4, 2, 1, 2, 2, 1, 1, 5, 3, 3, 1, 3, 1, 3, 3, 1, 0] 2581 = .found [0, 2, 4, 1, 2, 2, 1, 1, 5, 3, 3, 1, 3, 1, 3, 3, 1, 0] 2580 := rfl

set_option maxRecDepth 200000 in
theorem cexStep50 : scanRound cexInst cexDD [0, 2, 4, 1, 2, 2, 1, 1, 5, 3, 3, 1, 3, 1, 3, 3, 1, 0] 2580 = .found [0, 2, 1, 1, 2, 2, 1, 4, 5, 3, 3, 1, 3, 1, 3, 3, 1, 0] 2565 := rfl

set_option maxRecDepth 200000 in
theorem cexStep51 : scanRound cexInst cexDD [0, 2, 1, 1, 2, 2, 1, 4, 5, 3, 3, 1, 3, 1, 3, 3, 1, 0] 2565 = .found [0, 1, 2, 2, 1, 1, 2, 4, 5, 3, 3, 1, 3, 1, 3, 3, 1, 0] 2544 := rfl

set_option maxRecDepth 200000 in
theorem cexStep52 : scanRound cexInst cexDD [0, 1, 2, 2, 1, 1, 2, 4, 5, 3, 3, 1, 3, 1, 3, 3, 1, 0] 2544 = .found [0, 2, 1, 2, 1, 1, 2, 4, 5, 3, 3, 1, 3, 1, 3, 3, 1, 0] 2523 := rfl

set_option maxRecDepth 200000 in
theorem cexStep53 : scanRound cexInst cexDD [0, 2, 1, 2, 1, 1, 2, 4, 5, 3, 3, 1, 3, 1, 3, 3, 1, 0] 2523 = .found [0, 2, 2, 1, 1, 1, 2, 4, 5, 3, 3, 1, 3, 1, 3, 3, 1, 0] 2459 := rfl

set_option maxRecDepth 200000 in
theorem cexStep54 : scanRound cexInst cexDD [0, 2, 2, 1, 1, 1, 2, 4, 5, 3, 3, 1, 3, 1, 3, 3, 1, 0] 2459 = .found [0, 2, 2, 1, 1, 1, 2, 4, 5, 1, 3, 3, 3, 1, 3, 3, 1, 0] 2402 := rfl

set_option maxRecDepth 200000 in
theorem cexStep55 : scanRound cexInst cexDD [0, 2, 2, 1, 1, 1, 2, 4, 5, 1, 3, 3, 3, 1, 3, 3, 1, 0] 2402 = .found [0, 1, 5, 4, 2, 1, 1, 1, 2, 2, 3, 3, 3, 1, 3, 3, 1, 0] 2373 := rfl

set_option maxRecDepth 200000 in
theorem cexStep56 : scanRound cexInst cexDD [0, 1, 5, 4, 2, 1, 1, 1, 2, 2, 3, 3, 3, 1, 3, 3, 1, 0] 2373 = .found [0, 5, 1, 4, 2, 1, 1, 1, 2, 2, 3, 3, 3, 1, 3, 3, 1, 0] 2371 := rfl

set_option maxRecDepth 200000 in
theorem cexStep57 : scanRound cexInst cexDD [0, 5, 1, 4, 2, 1, 1, 1, 2, 2, 3, 3, 3, 1, 3, 3, 1, 0] 2371 = .found [0, 4, 1, 5, 2, 1, 1, 1, 2, 2, 3, 3, 3, 1, 3, 3, 1, 0] 2370 := rfl

set_option maxRecDepth 200000 in
theorem cexStep58 : scanRound cexInst cexDD [0, 4, 1, 5, 2, 1, 1, 1, 2, 2, 3, 3, 3, 1, 3, 3, 1, 0] 2370 = .found [0, 2, 5, 1, 4, 1, 1, 1, 2, 2, 3, 3, 3, 1, 3, 3, 1, 0] 2355 := rfl

set_option maxRecDepth 200000 in
theorem cexStep59 : scanRound cexInst cexDD [0, 2, 5, 1, 4, 1, 1, 1, 2, 2, 3, 3, 3, 1, 3, 3, 1, 0] 2355 = .found [0, 2, 1, 5, 4, 1, 1, 1, 2, 2, 3, 3, 3, 1, 3, 3, 1, 0] 2342 := rfl

set_option maxRecDepth 200000 in
theorem cexStep60 : scanRound cexInst cexDD [0, 2, 1, 5, 4, 1, 1, 1, 2, 2, 3, 3, 3, 1, 3, 3, 1, 0] 2342 = .found [0, 5, 1, 2, 4, 1, 1, 1, 2, 2, 3, 3, 3, 1, 3, 3, 1, 0] 2319 := rfl

set_option maxRecDepth 200000 in
theorem cexStep61 : scanRound cexInst cexDD [0, 5, 1, 2, 4, 1, 1, 1, 2, 2, 3, 3, 3, 1, 3, 3, 1, 0] 2319 = .found [0, 4, 2, 1, 5, 1, 1, 1, 2, 2, 3, 3, 3, 1, 3, 3, 1, 0] 2228 := rfl

set_option maxRecDepth 200000 in
theorem cexStep62 : scanRound cexInst cexDD [0, 4, 2, 1, 5, 1, 1, 1, 2, 2, 3, 3, 3, 1, 3, 3, 1, 0] 2228 = .found [0, 2, 4, 1, 5, 1, 1, 1, 2, 2, 3, 3, 3, 1, 3, 3, 1, 0] 2227 := rfl

set_option maxRecDepth 200000 in
theorem cexStep63 : scanRound cexInst cexDD [0, 2, 4, 1, 5, 1, 1, 1, 2, 2, 3, 3, 3, 1, 3, 3, 1, 0] 2227 = .found [0, 2, 1, 4, 5, 1, 1, 1, 2, 2, 3, 3, 3, 1, 3, 3, 1, 0] 2212 := rfl

set_option maxRecDepth 200000 in
theorem cexStep64 : scanRound cexInst cexDD [0, 2, 1, 4, 5, 1, 1, 1, 2, 2, 3, 3, 3, 1, 3, 3, 1, 0] 2212 = .found [0, 1, 2, 4, 5, 1, 1, 1, 2, 2, 3, 3, 3, 1, 3, 3, 1, 0] 2191 := rfl

set_option maxRecDepth 200000 in
theorem cexStep65 : scanRound cexInst cexDD [0, 1, 2, 4, 5, 1, 1, 1, 2, 2, 3, 3, 3, 1, 3, 3, 1, 0] 2191 = .found [0, 1, 2, 2, 2, 1, 1, 1, 5, 4, 3, 3, 3, 1, 3, 3, 1, 0] 2087 := rfl

set_option maxRecDepth 200000 in
theorem cexStep66 : scanRound cexInst cexDD [0, 1, 2, 2, 2, 1, 1, 1, 5, 4, 3, 3, 3, 1, 3, 3, 1, 0] 2087 = .found [0, 2, 1, 2, 2, 1, 1, 1, 5, 4, 3, 3, 3, 1, 3, 3, 1, 0] 2066 := rfl

set_option maxRecDepth 200000 in
theorem cexStep67 : scanRound cexInst cexDD [0, 2, 1, 2, 2, 1, 1, 1, 5, 4, 3, 3, 3, 1, 3, 3, 1, 0] 2066 = .found [0, 5, 1, 1, 1, 2, 2, 1, 2, 4, 3, 3, 3, 1, 3, 3, 1, 0] 2043 := rfl

set_option maxRecDepth 200000 in
theorem cexStep68 : scanRound cexInst cexDD [0, 5, 1, 1, 1, 2, 2, 1, 2, 4, 3, 3, 3, 1, 3, 3, 1, 0] 2043 = .found [0, 1, 5, 1, 1, 2, 2, 1, 2, 4, 3, 3, 3, 1, 3, 3, 1, 0] 2036 := rfl

set_option maxRecDepth 200000 in
theorem cexStep69 : scanRound cexInst cexDD [0, 1, 5, 1, 1, 2, 2, 1, 2, 4, 3, 3, 3, 1, 3, 3, 1, 0] 2036 = .found [0, 2, 1, 1, 5, 1, 2, 1, 2, 4, 3, 3, 3, 1, 3, 3, 1, 0] 2015 := rfl

set_option maxRecDepth 200000 in
theorem cexStep70 : scanRound cexInst cexDD [0, 2, 1, 1, 5, 1, 2, 1, 2, 4, 3, 3, 3, 1, 3, 3, 1, 0] 2015 = .found [0, 2, 2, 1, 5, 1, 1, 1, 2, 4, 3, 3, 3, 1, 3, 3, 1, 0] 1951 := rfl

set_option maxRecDepth 200000 in
theorem cexStep71 : scanRound cexInst cexDD [0, 2, 2, 1, 5, 1, 1, 1, 2, 4, 3, 3, 3, 1, 3, 3, 1, 0] 1951 = .found [0, 2, 2, 1, 4, 2, 1, 1, 1, 5, 3, 3, 3, 1, 3, 3, 1, 0] 1913 := rfl

set_option maxRecDepth 200000 in
theorem cexStep72 : scanRound cexInst cexDD [0, 2, 2, 1, 4, 2, 1, 1, 1, 5, 3, 3, 3, 1, 3, 3, 1, 0] 1913 = .found [0, 1, 2, 2, 4, 2, 1, 1, 1, 5, 3, 3, 3, 1, 3, 3, 1, 0] 1892 := rfl

set_option maxRecDepth 200000 in
theorem cexStep73 : scanRound cexInst cexDD [0, 1, 2, 2, 4, 2, 1, 1, 1, 5, 3, 3, 3, 1, 3, 3, 1, 0] 1892 = .found [0, 2, 1, 2, 4, 2, 1, 1, 1, 5, 3, 3, 3, 1, 3, 3, 1, 0] 1871 := rfl

set_option maxRecDepth 200000 in
theorem cexStep74 : scanRound cexInst cexDD [0, 2, 1, 2, 4, 2, 1, 1, 1, 5, 3, 3, 3, 1, 3, 3, 1, 0] 1871 = .found [0, 4, 2, 1, 2, 2, 1, 1, 1, 5, 3, 3, 3, 1, 3, 3, 1, 0] 1862 := rfl

set_option maxRecDepth 200000 in
theorem cexStep75 : scanRound cexInst cexDD [0, 4, 2, 1, 2, 2, 1, 1, 1, 5, 3, 3, 3, 1, 3, 3, 1, 0] 1862 = .found [0, 2, 4, 1, 2, 2, 1, 1, 1, 5, 3, 3, 3, 1, 3, 3, 1, 0] 1861 := rfl

set_option maxRecDepth 200000 in
theorem cexStep76 : scanRound cexInst cexDD [0, 2, 4, 1, 2, 2, 1, 1, 1, 5, 3, 3, 3, 1, 3, 3, 1, 0] 1861 = .found [0, 2, 1, 1, 1, 2, 2, 1, 4, 5, 3, 3, 3, 1, 3, 3, 1, 0] 1846 := rfl

set_option maxRecDepth 200000 in
theorem cexStep77 : scanRound cexInst cexDD [0, 2, 1, 1, 1, 2, 2, 1, 4, 5, 3, 3, 3, 1, 3, 3, 1, 0] 1846 = .found [0, 1, 2, 2, 1, 1, 1, 2, 4, 5, 3, 3, 3, 1, 3, 3, 1, 0] 1825 := rfl

set_option maxRecDepth 200000 in
theorem cexStep78 : scanRound cexInst cexDD [0, 1, 2, 2, 1, 1, 1, 2, 4, 5, 3, 3, 3, 1, 3, 3, 1, 0] 1825 = .found [0, 2, 1, 2, 1, 1, 1, 2, 4, 5, 3, 3, 3, 1, 3, 3, 1, 0] 1804 := rfl

set_option maxRecDepth 200000 in
theorem cexStep79 : scanRound cexInst cexDD [0, 2, 1, 2, 1, 1, 1, 2, 4, 5, 3, 3, 3, 1, 3, 3, 1, 0] 1804 = .found [0, 2, 2, 1, 1, 1, 1, 2, 4, 5, 3, 3, 3, 1, 3, 3, 1, 0] 1740 := rfl

set_option maxRecDepth 200000 in
theorem cexStep80 : scanRound cexInst cexDD [0, 2, 2, 1, 1, 1, 1, 2, 4, 5, 3, 3, 3, 1, 3, 3, 1, 0] 1740 = .found [0, 2, 2, 1, 1, 1, 1, 2, 4, 5, 1, 3, 3, 3, 3, 3, 1, 0] 1683 := rfl

set_option maxRecDepth 200000 in
theorem cexStep81 : scanRound cexInst cexDD [0, 2, 2, 1, 1, 1, 1, 2, 4, 5, 1, 3, 3, 3, 3, 3, 1, 0] 1683 = .found [0, 1, 5, 4, 2, 1, 1, 1, 1, 2, 2, 3, 3, 3, 3, 3, 1, 0] 1654 := rfl

set_option maxRecDepth 200000 in
theorem cexStep82 : scanRound cexInst cexDD [0, 1, 5, 4, 2, 1, 1, 1, 1, 2, 2, 3, 3, 3, 3, 3, 1, 0] 1654 = .found [0, 5, 1, 4, 2, 1, 1, 1, 1, 2, 2, 3, 3, 3, 3, 3, 1, 0] 1652 := rfl

set_option maxRecDepth 200000 in
theorem cexStep83 : scanRound cexInst cexDD [0, 5, 1, 4, 2, 1, 1, 1, 1, 2, 2, 3, 3, 3, 3, 3, 1, 0] 1652 = .found [0, 4, 1, 5, 2, 1, 1, 1, 1, 2, 2, 3, 3, 3, 3, 3, 1, 0] 1651 := rfl

set_option maxRecDepth 200000 in
theorem cexStep84 : scanRound cexInst cexDD [0, 4, 1, 5, 2, 1, 1, 1, 1, 2, 2, 3, 3, 3, 3, 3, 1, 0] 1651 = .found [0, 2, 5, 1, 4, 1, 1, 1, 1, 2, 2, 3, 3, 3, 3, 3, 1, 0] 1636 := rfl

set_option maxRecDepth 200000 in
theorem cexStep85 : scanRound cexInst cexDD [0, 2, 5, 1, 4, 1, 1, 1, 1, 2, 2, 3, 3, 3, 3, 3, 1, 0] 1636 = .found [0, 2, 1, 5, 4, 1, 1, 1, 1, 2, 2, 3, 3, 3, 3, 3, 1, 0] 1623 := rfl

set_option maxRecDepth 200000 in
theorem cexStep86 : scanRound cexInst cexDD [0, 2, 1, 5, 4, 1, 1, 1, 1, 2, 2, 3, 3, 3, 3, 3, 1, 0] 1623 = .found [0, 5, 1, 2, 4, 1, 1, 1, 1, 2, 2, 3, 3, 3, 3, 3, 1, 0] 1600 := rfl

set_option maxRecDepth 200000 in
theorem cexStep87 : scanRound cexInst cexDD [0, 5, 1, 2, 4, 1, 1, 1, 1, 2, 2, 3, 3, 3, 3, 3, 1, 0] 1600 = .found [0, 4, 2, 1, 5, 1, 1, 1, 1, 2, 2, 3, 3, 3, 3, 3, 1, 0] 1509 := rfl

set_option maxRecDepth 200000 in
theorem cexStep88 : scanRound cexInst cexDD [0, 4, 2, 1, 5, 1, 1, 1, 1, 2, 2, 3, 3, 3, 3, 3, 1, 0] 1509 = .found [0, 2, 4, 1, 5, 1, 1, 1, 1, 2, 2, 3, 3, 3, 3, 3, 1, 0] 1508 := rfl

set_option maxRecDepth 200000 in
theorem cexStep89 : scanRound cexInst cexDD [0, 2, 4, 1, 5, 1, 1, 1, 1, 2, 2, 3, 3, 3, 3, 3, 1, 0] 1508 = .found [0, 2, 1, 4, 5, 1, 1, 1, 1, 2, 2, 3, 3, 3, 3, 3, 1, 0] 1493 := rfl

set_option maxRecDepth 200000 in
theorem cexStep90 : scanRound cexInst cexDD [0, 2, 1, 4, 5, 1, 1, 1, 1, 2, 2, 3, 3, 3, 3, 3, 1, 0] 1493 = .found [0, 1, 2, 4, 5, 1, 1, 1, 1, 2, 2, 3, 3, 3, 3, 3, 1, 0] 1472 := rfl

set_option maxRecDepth 200000 in
theorem cexStep91 : scanRound cexInst cexDD [0, 1, 2, 4, 5, 1, 1, 1, 1, 2, 2, 3, 3, 3, 3, 3, 1, 0] 1472 = .found [0, 1, 2, 2, 2, 1, 1, 1, 1, 5, 4, 3, 3, 3, 3, 3, 1, 0] 1368 := rfl

set_option maxRecDepth 200000 in
theorem cexStep92 : scanRound cexInst cexDD [0, 1, 2, 2, 2, 1, 1, 1, 1, 5, 4, 3, 3, 3, 3, 3, 1, 0] 1368 = .found [0, 2, 1, 2, 2, 1, 1, 1, 1, 5, 4, 3, 3, 3, 3, 3, 1, 0] 1347 := rfl

set_option maxRecDepth 200000 in
theorem cexStep93 : scanRound cexInst cexDD [0, 2, 1, 2, 2, 1, 1, 1, 1, 5, 4, 3, 3, 3, 3, 3, 1, 0] 1347 = .found [0, 5, 1, 1, 1, 1, 2, 2, 1, 2, 4, 3, 3, 3, 3, 3, 1, 0] 1324 := rfl

set_option maxRecDepth 200000 in
theorem cexStep94 : scanRound cexInst cexDD [0, 5, 1, 1, 1, 1, 2, 2, 1, 2, 4, 3, 3, 3, 3, 3, 1, 0] 1324 = .found [0, 1, 5, 1, 1, 1, 2, 2, 1, 2, 4, 3, 3, 3, 3, 3, 1, 0] 1317 := rfl

set_option maxRecDepth 200000 in
theorem cexStep95 : scanRound cexInst cexDD [0, 1, 5, 1, 1, 1, 2, 2, 1, 2, 4, 3, 3, 3, 3, 3, 1, 0] 1317 = .found [0, 2, 1, 1, 1, 5, 1, 2, 1, 2, 4, 3, 3, 3, 3, 3, 1, 0] 1296 := rfl

set_option maxRecDepth 200000 in
theorem cexStep96 : scanRound cexInst cexDD [0, 2, 1, 1, 1, 5, 1, 2, 1, 2, 4, 3, 3, 3, 3, 3, 1, 0] 1296 = .found [0, 2, 2, 1, 5, 1, 1, 1, 1, 2, 4, 3, 3, 3, 3, 3, 1, 0] 1232 := rfl

set_option maxRecDepth 200000 in
theorem cexStep97 : scanRound cexInst cexDD [0, 2, 2, 1, 5, 1, 1, 1, 1, 2, 4, 3, 3, 3, 3, 3, 1, 0] 1232 = .found [0, 2, 2, 1, 4, 2, 1, 1, 1, 1, 5, 3, 3, 3, 3, 3, 1, 0] 1194 := rfl

set_option maxRecDepth 200000 in
theorem cexStep98 : scanRound cexInst cexDD [0, 2, 2, 1, 4, 2, 1, 1, 1, 1, 5, 3, 3, 3, 3, 3, 1, 0] 1194 = .found [0, 1, 2, 2, 4, 2, 1, 1, 1, 1, 5, 3, 3, 3, 3, 3, 1, 0] 1173 := rfl

set_option maxRecDepth 200000 in
theorem cexStep99 : scanRound cexInst cexDD [0, 1, 2, 2, 4, 2, 1, 1, 1, 1, 5, 3, 3, 3, 3, 3, 1, 0] 1173 = .found cexS100 1152 := rfl

set_option maxRecDepth 200000 in
theorem cexStep100 : scanRound cexInst cexDD cexS100 1152 = .found cexS101 1143 := rfl

/-- Baseline metrics of the counterexample start sequence. -/
def cexM0 : Metrics := (evaluate_route cexS0 cexInst cexDD).getD default

set_option maxRecDepth 200000 in
theorem cexEval0 : evaluate_route cexS0 cexInst cexDD = some cexM0 := rfl

set_option maxRecDepth 200000 in
theorem cexM0_dist : cexM0.total_distance = 4050 := rfl

/-- Metrics of the sequence reached when the 100-round cap stops the
first run. -/
def cexM1 : Metrics := (evaluate_route cexS100 cexInst cexDD).getD default

set_option maxRecDepth 200000 in
theorem cexEval100 : evaluate_route cexS100 cexInst cexDD = some cexM1 := rfl

set_option maxRecDepth 200000 in
theorem cexM1_dist : cexM1.total_distance = 1152 := rfl

set_option maxRecDepth 200000 in
theorem cexM1_seq : cexM1.sequence = cexS100 := rfl

/-- Metrics of the improving candidate still available after the cap. -/
def cexM101 : Metrics := (evaluate_route cexS101 cexInst cexDD).getD default

set_option maxRecDepth 200000 in
theorem cexEval101 : evaluate_route cexS101 cexInst cexDD = some cexM101 := rfl

set_option maxRecDepth 200000 in
theorem cexM101_dist : cexM101.total_distance = 1143 := rfl

/-- The first run of the loop spends all 100 rounds accepting the
staged moves and stops at the cap. -/
theorem cexLoop : rvndLoop cexInst cexDD 100 cexS0 4050 = some cexS100 :=
  (rvndLoop_shift cexInst cexDD 99 rfl cexStep0
    (rvndLoop_shift cexInst cexDD 98 rfl cexStep1
    (rvndLoop_shift cexInst cexDD 97 rfl cexStep2
    (rvndLoop_shift cexInst cexDD 96 rfl cexStep3
    (rvndLoop_shift cexInst cexDD 95 rfl cexStep4
    (rvndLoop_shift cexInst cexDD 94 rfl cexStep5
    (rvndLoop_shift cexInst cexDD 93 rfl cexStep6
    (rvndLoop_shift cexInst cexDD 92 rfl cexStep7
    (rvndLoop_shift cexInst cexDD 91 rfl cexStep8
    (rvndLoop_shift cexInst cexDD 90 rfl cexStep9
    (rvndLoop_shift cexInst cexDD 89 rfl cexStep10
    (rvndLoop_shift cexInst cexDD 88 rfl cexStep11
    (rvndLoop_shift cexInst cexDD 87 rfl cexStep12
    (rvndLoop_shift cexInst cexDD 86 rfl cexStep13
    (rvndLoop_shift cexInst cexDD 85 rfl cexStep14
    (rvndLoop_shift cexInst cexDD 84 rfl cexStep15
    (rvndLoop_shift cexInst cexDD 83 rfl cexStep16
    (rvndLoop_shift cexInst cexDD 82 rfl cexStep17
    (rvndLoop_shift cexInst cexDD 81 rfl cexStep18
    (rvndLoop_shift cexInst cexDD 80 rfl cexStep19
    (rvndLoop_shift cexInst cexDD 79 rfl cexStep20
    (rvndLoop_shift cexInst cexDD 78 rfl cexStep21
    (rvndLoop_shift cexInst cexDD 77 rfl cexStep22
    (rvndLoop_shift cexInst cexDD 76 rfl cexStep23
    (rvndLoop_shift cexInst cexDD 75 rfl cexStep24
    (rvndLoop_shift cexInst cexDD 74 rfl cexStep25
    (rvndLoop_shift cexInst cexDD 73 rfl cexStep26
    (rvndLoop_shift cexInst cexDD 72 rfl cexStep27
    (rvndLoop_shift cexInst cexDD 71 rfl cexStep28
    (rvndLoop_shift cexInst cexDD 70 rfl cexStep29
    (rvndLoop_shift cexInst cexDD 69 rfl cexStep30
    (rvndLoop_shift cexInst cexDD 68 rfl cexStep31
    (rvndLoop_shift cexInst cexDD 67 rfl cexStep32
    (rvndLoop_shift cexInst cexDD 66 rfl cexStep33
    (rvndLoop_shift cexInst cexDD 65 rfl cexStep34
    (rvndLoop_shift cexInst cexDD 64 rfl cexStep35
    (rvndLoop_shift cexInst cexDD 63 rfl cexStep36
    (rvndLoop_shift cexInst cexDD 62 rfl cexStep37
    (rvndLoop_shift cexInst cexDD 61 rfl cexStep38
    (rvndLoop_shift cexInst cexDD 60 rfl cexStep39
    (rvndLoop_shift cexInst cexDD 59 rfl cexStep40
    (rvndLoop_shift cexInst cexDD 58 rfl cexStep41
    (rvndLoop_shift cexInst cexDD 57 rfl cexStep42
    (rvndLoop_shift cexInst cexDD 56 rfl cexStep43
    (rvndLoop_shift cexInst cexDD 55 rfl cexStep44
    (rvndLoop_shift cexInst cexDD 54 rfl cexStep45
    (rvndLoop_shift cexInst cexDD 53 rfl cexStep46
    (rvndLoop_shift cexInst cexDD 52 rfl cexStep47
    (rvndLoop_shift cexInst cexDD 51 rfl cexStep48
    (rvndLoop_shift cexInst cexDD 50 rfl cexStep49
    (rvndLoop_shift cexInst cexDD 49 rfl cexStep50
    (rvndLoop_shift cexInst cexDD 48 rfl cexStep51
    (rvndLoop_shift cexInst cexDD 47 rfl cexStep52
    (rvndLoop_shift cexInst cexDD 46 rfl cexStep53
    (rvndLoop_shift cexInst cexDD 45 rfl cexStep54
    (rvndLoop_shift cexInst cexDD 44 rfl cexStep55
    (rvndLoop_shift cexInst cexDD 43 rfl cexStep56
    (rvndLoop_shift cexInst cexDD 42 rfl cexStep57
    (rvndLoop_shift cexInst cexDD 41 rfl cexStep58
    (rvndLoop_shift cexInst cexDD 40 rfl cexStep59
    (rvndLoop_shift cexInst cexDD 39 rfl cexStep60
    (rvndLoop_shift cexInst cexDD 38 rfl cexStep61
    (rvndLoop_shift cexInst cexDD 37 rfl cexStep62
    (rvndLoop_shift cexInst cexDD 36 rfl cexStep63
    (rvndLoop_shift cexInst cexDD 35 rfl cexStep64
    (rvndLoop_shift cexInst cexDD 34 rfl cexStep65
    (rvndLoop_shift cexInst cexDD 33 rfl cexStep66
    (rvndLoop_shift cexInst cexDD 32 rfl cexStep67
    (rvndLoop_shift cexInst cexDD 31 rfl cexStep68
    (rvndLoop_shift cexInst cexDD 30 rfl cexStep69
    (rvndLoop_shift cexInst cexDD 29 rfl cexStep70
    (rvndLoop_shift cexInst cexDD 28 rfl cexStep71
    (rvndLoop_shift cexInst cexDD 27 rfl cexStep72
    (rvndLoop_shift cexInst cexDD 26 rfl cexStep73
    (rvndLoop_shift cexInst cexDD 25 rfl cexStep74
    (rvndLoop_shift cexInst cexDD 24 rfl cexStep75
    (rvndLoop_shift cexInst cexDD 23 rfl cexStep76
    (rvndLoop_shift cexInst cexDD 22 rfl cexStep77
    (rvndLoop_shift cexInst cexDD 21 rfl cexStep78
    (rvndLoop_shift cexInst cexDD 20 rfl cexStep79
    (rvndLoop_shift cexInst cexDD 19 rfl cexStep80
    (rvndLoop_shift cexInst cexDD 18 rfl cexStep81
    (rvndLoop_shift cexInst cexDD 17 rfl cexStep82
    (rvndLoop_shift cexInst cexDD 16 rfl cexStep83
    (rvndLoop_shift cexInst cexDD 15 rfl cexStep84
    (rvndLoop_shift cexInst cexDD 14 rfl cexStep85
    (rvndLoop_shift cexInst cexDD 13 rfl cexStep86
    (rvndLoop_shift cexInst cexDD 12 rfl cexStep87
    (rvndLoop_shift cexInst cexDD 11 rfl cexStep88
    (rvndLoop_shift cexInst cexDD 10 rfl cexStep89
    (rvndLoop_shift cexInst cexDD 9 rfl cexStep90
    (rvndLoop_shift cexInst cexDD 8 rfl cexStep91
    (rvndLoop_shift cexInst cexDD 7 rfl cexStep92
    (rvndLoop_shift cexInst cexDD 6 rfl cexStep93
    (rvndLoop_shift cexInst cexDD 5 rfl cexStep94
    (rvndLoop_shift cexInst cexDD 4 rfl cexStep95
    (rvndLoop_shift cexInst cexDD 3 rfl cexStep96
    (rvndLoop_shift cexInst cexDD 2 rfl cexStep97
    (rvndLoop_shift cexInst cexDD 1 rfl cexStep98
    (rvndLoop_shift cexInst cexDD 0 rfl cexStep99
    rfl))))))))))))))))))))))))))))))))))))))))))))))))))))))))))))))))))))))))))))))))))))))))))))))))))))

/-- The first run returns the capped state and its metrics. -/
theorem cexRun1 : rvnd_route ⟨cexS0⟩ cexInst cexDD (0 : ℕ) = some cexM1 := by
  rw [rvnd_route]
  simp only [cexEval0, cexM0_dist, max_iterations, cexLoop, cexEval100]

/-- **C2 (counterexample)**: the second-run fixpoint property fails as
stated: on this instance the first `rvnd_route` run exhausts the
100-iteration cap while an improving move is still available, so its
output is not a local optimum — the scan of its sequence still accepts
a move, and a second run on that sequence returns different metrics
(its distance improves strictly below the first run's). -/
theorem rvnd_route_second_run_improves :
    rvnd_route ⟨cexS0⟩ cexInst cexDD (0 : ℕ) = some cexM1 ∧
    scanRound cexInst cexDD cexM1.sequence cexM1.total_distance =
      .found cexS101 1143 ∧
    rvnd_route ⟨cexM1.sequence⟩ cexInst cexDD (0 : ℕ) ≠ some cexM1 := by
  refine ⟨cexRun1, ?_, ?_⟩
  · rw [cexM1_seq, cexM1_dist]; exact cexStep100
  · intro hcontra
    rw [cexM1_seq, rvnd_route] at hcontra
    simp only [cexEval100, cexM1_dist, max_iterations] at hcontra
    have hl : rvndLoop cexInst cexDD 100 cexS100 1152 =
        rvndLoop cexInst cexDD 99 cexS101 1143 :=
      rvndLoop_shift cexInst cexDD 99 rfl cexStep100 rfl
    rw [hl] at hcontra
    cases hbest : rvndLoop cexInst cexDD 99 cexS101 1143 with
    | none => rw [hbest] at hcontra; exact absurd hcontra (by simp)
    | some best =>
      rw [hbest] at hcontra
      simp only [] at hcontra
      obtain ⟨mb, hmb, hble⟩ := rvndLoop_le 99 hbest cexEval101 cexM101_dist
      rw [hmb] at hcontra
      have hm : mb = cexM1 := Option.some_inj.mp hcontra
      rw [hm, cexM1_dist] at hble
      norm_num at hble

end Rvnd

namespace SweepNN

/-- `minutes_to_clock` of `sweep_nn.py`: like the `rvnd.py` one but with an
exact sub-minute remainder compared against `1e-6` and formatted with
`:02.0f` (so a remainder that rounds to zero still prints `+00s`). -/
def minutes_to_clock (value : ℚ) : String :=
  let hours : ℤ := ⌊value / 60⌋
  let minutes : ℤ := ⌊value - 60 * hours⌋
  let seconds : ℚ := (value - ⌊value⌋) * 60
  if seconds < 1/1000000 then pad2 hours ++ ":" ++ pad2 minutes
  else pad2 hours ++ ":" ++ pad2 minutes ++ "+" ++ pad2 (pyRound seconds) ++ "s"

/-- A cluster emitted by `build_clusters`. -/
structure Cluster where
  cluster_id : ℕ
  vehicle_type : String
  customer_ids : List ℤ
  total_demand : ℚ
deriving DecidableEq, Repr, Inhabited

/-- Failures of the sweep: `capacityInfeasible` is the
`RuntimeError("No available vehicle can serve customer demand")`;
`noVehicle` is the (unreachable) close of a non-empty cluster whose
`current_vehicle` is `None`. -/
inductive SweepError where
  | capacityInfeasible : SweepError
  | noVehicle : SweepError
deriving DecidableEq, Repr, Inhabited

/-- The mutable state of the sweep loop. -/
structure SweepState where
  clusters : List Cluster
  cluster_id : ℕ
  current_customers : List Customer
  current_demand : ℚ
  current_vehicle : Option Fleet
  available_units : String → ℤ

/-- The dict `{fleet["id"]: fleet["units"]}` (last occurrence wins; only ids
present in the fleet list are ever queried). -/
def initUnits (fleets : List Fleet) (fid : String) : ℤ :=
  (((fleets.filter (fun f => f.id == fid)).getLast?).map Fleet.units).getD 0

/-- The `feasible_fleets` list comprehension: fleet types with a remaining
unit and enough capacity for the proposed demand. -/
def feasible_fleets (fleets : List Fleet) (units : String → ℤ)
    (proposed : ℚ) : List Fleet :=
  fleets.filter fun f => decide (0 < units f.id) && decide (proposed ≤ f.capacity)

/-- `min(feasible_fleets, key=capacity)`: the first fleet of minimal
capacity (Python `min` replaces the incumbent only on a strict decrease). -/
def min_by_capacity : List Fleet → Option Fleet
  | [] => none
  | f :: rest =>
    some (rest.foldl (fun best g => if g.capacity < best.capacity then g else best) f)

/-- Closing the current cluster: emit it with its assigned vehicle type,
decrement that type's unit counter, reset the accumulator. -/
def closeState (σ : SweepState) : Except SweepError SweepState :=
  match σ.current_vehicle with
  | none => .error .noVehicle
  | some v =>
    .ok ⟨σ.clusters ++
          [⟨σ.cluster_id, v.id, σ.current_customers.map Customer.id,
            σ.current_demand⟩],
        σ.cluster_id + 1, [], 0, none,
        Function.update σ.available_units v.id (σ.available_units v.id - 1)⟩

/-- One customer of the sweep (`while not added` runs at most twice: a
failed fit on a non-empty cluster closes it and retries once on the empty
cluster). -/
def sweepStep (fleets : List Fleet) (σ : SweepState) (c : Customer) :
    Except SweepError SweepState :=
  match min_by_capacity (feasible_fleets fleets σ.available_units
      (σ.current_demand + c.demand)) with
  | some chosen =>
    .ok ⟨σ.clusters, σ.cluster_id, σ.current_customers ++ [c],
        σ.current_demand + c.demand, some chosen, σ.available_units⟩
  | none =>
    if σ.current_customers = [] then .error .capacityInfeasible
    else
      match closeState σ with
      | .error e => .error e
      | .ok σ2 =>
        match min_by_capacity (feasible_fleets fleets σ2.available_units
            (σ2.current_demand + c.demand)) with
        | some chosen =>
          .ok ⟨σ2.clusters, σ2.cluster_id, σ2.current_customers ++ [c],
              σ2.current_demand + c.demand, some chosen, σ2.available_units⟩
        | none => .error .capacityInfeasible

/-- The sweep loop over the angle-ordered customers. -/
def sweepGo (fleets : List Fleet) : SweepState → List Customer →
    Except SweepError SweepState
  | σ, [] => .ok σ
  | σ, c :: cs =>
    match sweepStep fleets σ c with
    | .error e => .error e
    | .ok σ2 => sweepGo fleets σ2 cs

/-- The initial sweep state. -/
def initState (inst : Instance) : SweepState :=
  ⟨[], 1, [], 0, none, initUnits inst.fleet⟩

/-- Keys of a Python dict built from the fleet list: first-occurrence
order. -/
def firstOccKeys : List String → List String
  | [] => []
  | x :: xs => x :: (firstOccKeys xs).filter (fun y => y != x)

/-- The final `used_units` dict: per fleet id, units of the last record
with that id minus the remaining counter. -/
def used_units (fleets : List Fleet) (units : String → ℤ) :
    List (String × ℤ) :=
  (firstOccKeys (fleets.map Fleet.id)).map fun fid =>
    (fid, initUnits fleets fid - units fid)

/-- `build_clusters` of `sweep_nn.py`, applied to an already angle-ordered
customer list (`compute_polar_angle`/`sort` only fix which permutation of
`instance["customers"]` is swept; every theorem below quantifies over that
permutation). Runs the sweep, flushes a non-empty open cluster, and
returns the clusters with the per-fleet used units. -/
def build_clusters (inst : Instance) (sorted_customers : List Customer) :
    Except SweepError (List Cluster × List (String × ℤ)) :=
  match sweepGo inst.fleet (initState inst) sorted_customers with
  | .error e => .error e
  | .ok σ =>
    match (if σ.current_customers = [] then .ok σ else closeState σ :
        Except SweepError SweepState) with
    | .error e => .error e
    | .ok σ2 => .ok (σ2.clusters, used_units inst.fleet σ2.available_units)

/-- The `(distance, cid)` selection keys of the nearest-neighbor `min` call;
`none` is a `KeyError`/`IndexError` in any key. -/
def nn_keys (dd : DistanceData) (current : ℤ) : List ℤ →
    Option (List (ℚ × ℤ))
  | [] => some []
  | cid :: rest =>
    match matrix_lookup dd dd.distance_matrix current cid with
    | none => none
    | some dist =>
      match nn_keys dd current rest with
      | none => none
      | some keys => some ((dist, cid) :: keys)

/-- Lexicographic minimum of the keys (Python `min` on `(distance, cid)`
tuples; unique because ids in a set are distinct). -/
def lex_min : List (ℚ × ℤ) → Option (ℚ × ℤ)
  | [] => none
  | p :: rest =>
    some (rest.foldl
      (fun best q =>
        if q.1 < best.1 ∨ (q.1 = best.1 ∧ q.2 < best.2) then q else best) p)

/-- `min(unvisited, key=lambda cid: (distance, cid))`. -/
def nn_pick (dd : DistanceData) (current : ℤ) (unvisited : List ℤ) :
    Option ℤ :=
  match nn_keys dd current unvisited with
  | none => none
  | some keys => (lex_min keys).map fun p => p.2

theorem lex_min_mem {l : List (ℚ × ℤ)} {p : ℚ × ℤ} (h : lex_min l = some p) :
    p ∈ l := by
  match l with
  | [] => exact absurd h (by simp [lex_min])
  | q :: rest =>
    rw [lex_min] at h
    have hgen : ∀ (sub : List (ℚ × ℤ)), (∀ x, x ∈ sub → x ∈ q :: rest) →
        ∀ acc, acc ∈ q :: rest →
        sub.foldl (fun best r =>
          if r.1 < best.1 ∨ (r.1 = best.1 ∧ r.2 < best.2) then r
          else best) acc ∈ q :: rest := by
      intro sub
      induction sub with
      | nil => intro _ acc hacc; exact hacc
      | cons x xs ihx =>
        intro hsub acc hacc
        rw [List.foldl_cons]
        apply ihx (fun y hy => hsub y (List.mem_cons_of_mem x hy))
        split
        · exact hsub x (List.mem_cons_self x xs)
        · exact hacc
    have hin := hgen rest (fun x hx => List.mem_cons_of_mem q hx) q
      (List.mem_cons_self q rest)
    rw [Option.some_inj.mp h] at hin
    exact hin

theorem nn_keys_snd {dd : DistanceData} {current : ℤ} :
    ∀ {unvisited : List ℤ} {keys : List (ℚ × ℤ)},
      nn_keys dd current unvisited = some keys →
      keys.map Prod.snd = unvisited := by
  intro unvisited
  induction unvisited with
  | nil => intro keys h; cases h; rfl
  | cons cid rest ih =>
    intro keys h
    rw [nn_keys] at h
    split at h
    · exact absurd h (by simp)
    split at h
    · exact absurd h (by simp)
    rename_i keys2 hkeys2
    cases h
    simp [ih hkeys2]

theorem nn_pick_mem {dd : DistanceData} {current pick : ℤ}
    {unvisited : List ℤ} (h : nn_pick dd current unvisited = some pick) :
    pick ∈ unvisited := by
  rw [nn_pick] at h
  split at h
  · exact absurd h (by simp)
  · rename_i keys hkeys
    cases hlm : lex_min keys with
    | none => rw [hlm] at h; exact absurd h (by simp)
    | some p =>
      rw [hlm] at h
      have hp := lex_min_mem hlm
      have hpick : p.2 = pick := by simpa using h
      rw [← hpick, ← nn_keys_snd hkeys]
      exact List.mem_map_of_mem Prod.snd hp

/-- The nearest-neighbor construction loop: repeatedly pick the unvisited
member with the least `(distance, id)` key from the current position.
The fuel counter only bounds the recursion (each step erases the picked
member, so `unvisited.length` fuel is always enough); the exhausted-fuel
branch is unreachable. -/
def nnBuildF (dd : DistanceData) : ℕ → ℤ → List ℤ → Option (List ℤ)
  | 0, _, unvisited =>
    match unvisited with
    | [] => some []
    | _ :: _ => none
  | fuel + 1, current, unvisited =>
    match unvisited with
    | [] => some []
    | x :: xs =>
      match nn_pick dd current (x :: xs) with
      | none => none
      | some pick =>
        match nnBuildF dd fuel pick ((x :: xs).erase pick) with
        | none => none
        | some tail => some (pick :: tail)

/-- The `while unvisited:` loop, with enough fuel for its member set. -/
def nnBuild (dd : DistanceData) (current : ℤ) (unvisited : List ℤ) :
    Option (List ℤ) :=
  nnBuildF dd unvisited.length current unvisited

/-- The route record produced by `nearest_neighbor_route`. -/
structure NNRoute where
  cluster_id : ℕ
  vehicle_type : String
  sequence : List ℤ
  stops : List Rvnd.Stop
  total_distance : ℚ
  total_tw_violation : ℚ
deriving DecidableEq, Repr, Inhabited

/-- The evaluation loop duplicated inside `nearest_neighbor_route`: same
chronological arithmetic as `evaluate_route`, but only distance and
time-window violation are accumulated, and clock strings use the
`sweep_nn.py` formatter. -/
def nnGo (inst : Instance) (dd : DistanceData) :
    ℤ → ℚ → List ℤ → Option (List Rvnd.Stop × ℚ × ℚ)
  | _, _, [] => some ([], 0, 0)
  | prev, t, next :: rest =>
    match matrix_lookup dd dd.travel_time_matrix prev next with
    | none => none
    | some travel =>
      match matrix_lookup dd dd.distance_matrix prev next with
      | none => none
      | some distance =>
        match node_tw_service inst next with
        | none => none
        | some tws =>
          let arrival_no_wait := t + travel
          let arrival := max tws.1 arrival_no_wait
          let wait_time := max 0 (tws.1 - arrival_no_wait)
          let violation := max 0 (arrival - tws.2.1)
          let departure := arrival + tws.2.2
          match nnGo inst dd next departure rest with
          | none => none
          | some tail =>
            some (⟨next, arrival, minutes_to_clock arrival, departure,
                minutes_to_clock departure, wait_time, violation⟩ :: tail.1,
              distance + tail.2.1,
              (if next ≠ 0 then violation else 0) + tail.2.2)

/-- `nearest_neighbor_route` of `sweep_nn.py`: greedy construction from the
depot over the cluster's member set, closing at the depot, then the
duplicated chronological evaluation. `none` is an uncaught
`KeyError`/`IndexError`. -/
def nearest_neighbor_route (cluster : Cluster) (inst : Instance)
    (dd : DistanceData) : Option NNRoute :=
  match nnBuild dd 0 cluster.customer_ids.dedup with
  | none => none
  | some picks =>
    let dstart := inst.depot.time_window.tw_start
    let t0 := dstart + inst.depot.service_time
    let stop0 : Rvnd.Stop :=
      ⟨0, dstart, minutes_to_clock dstart, t0, minutes_to_clock t0, 0,
       max 0 (dstart - inst.depot.time_window.tw_end)⟩
    match nnGo inst dd 0 t0 (picks ++ [0]) with
    | none => none
    | some r =>
      some ⟨cluster.cluster_id, cluster.vehicle_type, 0 :: (picks ++ [0]),
        stop0 :: r.1, r.2.1, r.2.2⟩

/-- Equality of a stop's five numeric fields (everything except the two
formatted clock strings). -/
def stop_core_eq (s1 s2 : Rvnd.Stop) : Prop :=
  s1.node_id = s2.node_id ∧ s1.arrival = s2.arrival ∧
  s1.departure = s2.departure ∧ s1.wait = s2.wait ∧
  s1.violation = s2.violation

/-- The duplicated evaluation loop of `nearest_neighbor_route` agrees with
`evalGo` of `evaluate_route` on every numeric stop field and on the
distance and violation sums. -/
theorem nnGo_to_evalGo {inst : Instance} {dd : DistanceData} :
    ∀ (rest : List ℤ) (prev : ℤ) (t : ℚ) (r : List Rvnd.Stop × ℚ × ℚ),
      nnGo inst dd prev t rest = some r →
      ∃ e, Rvnd.evalGo inst dd prev t rest = some e ∧
        List.Forall₂ stop_core_eq r.1 e.1 ∧
        r.2.1 = e.2.1 ∧ r.2.2 = e.2.2.2.2 := by
  intro rest
  induction rest with
  | nil =>
    intro prev t r h
    cases h
    exact ⟨([], 0, 0, 0, 0), rfl, List.Forall₂.nil, rfl, rfl⟩
  | cons next rest2 ih =>
    intro prev t r h
    rw [nnGo] at h
    split at h
    · exact absurd h (by simp)
    rename_i travel ht
    split at h
    · exact absurd h (by simp)
    rename_i distance hd
    split at h
    · exact absurd h (by simp)
    rename_i tws htw
    dsimp only at h
    cases htail : nnGo inst dd next (max tws.1 (t + travel) + tws.2.2) rest2 with
    | none => rw [htail] at h; exact absurd h (by simp)
    | some tail =>
    rw [htail] at h
    cases h
    obtain ⟨e2, he2, hf2, hd2, hv2⟩ := ih next _ tail htail
    have hstep : Rvnd.evalStep inst dd prev next t =
        some (distance, travel, tws.2.2,
          ⟨next, max tws.1 (t + travel),
           Rvnd.minutes_to_clock (max tws.1 (t + travel)),
           max tws.1 (t + travel) + tws.2.2,
           Rvnd.minutes_to_clock (max tws.1 (t + travel) + tws.2.2),
           max 0 (tws.1 - (t + travel)),
           max 0 (max tws.1 (t + travel) - tws.2.1)⟩) := by
      rw [Rvnd.evalStep, ht, hd, htw]
    refine ⟨(⟨next, max tws.1 (t + travel),
        Rvnd.minutes_to_clock (max tws.1 (t + travel)),
        max tws.1 (t + travel) + tws.2.2,
        Rvnd.minutes_to_clock (max tws.1 (t + travel) + tws.2.2),
        max 0 (tws.1 - (t + travel)),
        max 0 (max tws.1 (t + travel) - tws.2.1)⟩ :: e2.1,
      distance + e2.2.1, travel + e2.2.2.1,
      (if next ≠ 0 then tws.2.2 else 0) + e2.2.2.2.1,
      (if next ≠ 0 then max 0 (max tws.1 (t + travel) - tws.2.1) else 0) +
        e2.2.2.2.2), ?_, ?_, ?_, ?_⟩
    · rw [Rvnd.evalGo, hstep]
      simp [he2]
    · exact List.Forall₂.cons ⟨rfl, rfl, rfl, rfl, rfl⟩ hf2
    · simpa using hd2
    · simpa using hv2

/-- **C3 (amended)**: on the constructed sequence,
`nearest_neighbor_route` and `evaluate_route` agree on `total_distance`,
`total_tw_violation`, and on every numeric field of every stop after the
first; the opening depot stop agrees on all numeric fields except
`violation`, where the constructor records
`max 0 (depot window start − depot window end)` while `evaluate_route`
records `0` (equal whenever the depot window start ≤ end); the formatted
clock strings come from two different formatters and may differ on
sub-minute times. -/
theorem nearest_neighbor_route_matches_evaluate (cluster : Cluster)
    (inst : Instance) (dd : DistanceData) (r : NNRoute)
    (hr : nearest_neighbor_route cluster inst dd = some r) :
    ∃ m, Rvnd.evaluate_route r.sequence inst dd = some m ∧
      r.total_distance = m.total_distance ∧
      r.total_tw_violation = m.total_tw_violation ∧
      List.Forall₂ stop_core_eq r.stops.tail m.stops.tail ∧
      ∃ s1 s2, r.stops.head? = some s1 ∧ m.stops.head? = some s2 ∧
        s1.node_id = s2.node_id ∧ s1.arrival = s2.arrival ∧
        s1.departure = s2.departure ∧ s1.wait = s2.wait ∧
        s1.violation = max 0 (inst.depot.time_window.tw_start -
          inst.depot.time_window.tw_end) ∧
        s2.violation = 0 := by
  rw [nearest_neighbor_route] at hr
  split at hr
  · exact absurd hr (by simp)
  rename_i picks hpicks
  dsimp only at hr
  cases hgo : nnGo inst dd 0 (inst.depot.time_window.tw_start +
      inst.depot.service_time) (picks ++ [0]) with
  | none => rw [hgo] at hr; exact absurd hr (by simp)
  | some rr =>
  rw [hgo] at hr
  cases hr
  obtain ⟨e, he, hf, hd, hv⟩ := nnGo_to_evalGo (picks ++ [0]) 0 _ rr hgo
  refine ⟨⟨0 :: (picks ++ [0]),
      ⟨0, inst.depot.time_window.tw_start,
       Rvnd.minutes_to_clock inst.depot.time_window.tw_start,
       inst.depot.time_window.tw_start + inst.depot.service_time,
       Rvnd.minutes_to_clock (inst.depot.time_window.tw_start +
         inst.depot.service_time), 0, 0⟩ :: e.1,
      e.2.1, e.2.2.1, e.2.2.2.1, e.2.2.1 + e.2.2.2.1, e.2.2.2.2,
      e.2.1 + (e.2.2.1 + e.2.2.2.1) + e.2.2.2.2⟩, ?_, hd, hv, ?_, ?_⟩
  · rw [Rvnd.evaluate_route]
    simp [he]
  · simpa using hf
  · exact ⟨_, _, rfl, rfl, rfl, rfl, rfl, rfl, rfl, rfl⟩

/-- Counterexample instance for the duplicated-evaluation claim: the depot
window ends before it starts, and the travel time has a dyadic fractional
part (exact in binary floating point). -/
def c3Inst : Instance :=
  ⟨⟨0, 0, ⟨480, 300⟩, 0⟩, [⟨1, 1, 0, 5, ⟨0, 10000⟩, 0⟩], [⟨"truck", 10, 1⟩]⟩

/-- Counterexample distance record for nodes 0 and 1. -/
def c3DD : DistanceData :=
  ⟨[0, 1], [[0, 10], [10, 0]], [[0, 1/256], [1/256, 0]]⟩

/-- Counterexample cluster with the single customer. -/
def c3Cluster : Cluster := ⟨1, "truck", [1], 5⟩

/-- The route built by `nearest_neighbor_route` on the counterexample. -/
def c3NR : NNRoute := (nearest_neighbor_route c3Cluster c3Inst c3DD).getD default

/-- The metrics of `evaluate_route` on the same constructed sequence. -/
def c3M : Rvnd.Metrics :=
  (Rvnd.evaluate_route c3NR.sequence c3Inst c3DD).getD default

/-- **C3 (counterexample)**: the stops produced by `nearest_neighbor_route`
are not equal to those of `evaluate_route` on the same sequence: the opening
depot stop's `violation` differs (180 vs 0) and the formatted `arrival_str`
strings differ (`08:00+00s` vs `08:00`), while the two totals agree. -/
theorem nearest_neighbor_route_stops_differ :
    nearest_neighbor_route c3Cluster c3Inst c3DD = some c3NR ∧
    Rvnd.evaluate_route c3NR.sequence c3Inst c3DD = some c3M ∧
    c3NR.stops ≠ c3M.stops ∧
    c3NR.stops.map Rvnd.Stop.violation ≠ c3M.stops.map Rvnd.Stop.violation ∧
    c3NR.stops.map Rvnd.Stop.arrival_str ≠
      c3M.stops.map Rvnd.Stop.arrival_str ∧
    c3NR.total_distance = c3M.total_distance ∧
    c3NR.total_tw_violation = c3M.total_tw_violation := by
  refine ⟨rfl, rfl, ?_, ?_, ?_, rfl, rfl⟩ <;> decide

theorem nearest_neighbor_route_matches_evaluate_witness :
    nearest_neighbor_route c3Cluster c3Inst c3DD = some c3NR ∧
    (∃ m, Rvnd.evaluate_route c3NR.sequence c3Inst c3DD = some m ∧
      c3NR.total_distance = m.total_distance ∧
      c3NR.total_tw_violation = m.total_tw_violation ∧
      List.Forall₂ stop_core_eq c3NR.stops.tail m.stops.tail ∧
      ∃ s1 s2, c3NR.stops.head? = some s1 ∧ m.stops.head? = some s2 ∧
        s1.node_id = s2.node_id ∧ s1.arrival = s2.arrival ∧
        s1.departure = s2.departure ∧ s1.wait = s2.wait ∧
        s1.violation = max 0 (c3Inst.depot.time_window.tw_start -
          c3Inst.depot.time_window.tw_end) ∧
        s2.violation = 0) :=
  ⟨rfl, nearest_neighbor_route_matches_evaluate c3Cluster c3Inst c3DD c3NR rfl⟩

/-! ## Clustering conservation, capacity, and error characterization -/

/-- The customer ids already placed by the sweep: emitted clusters in order,
then the open cluster. -/
def processedIds (σ : SweepState) : List ℤ :=
  (σ.clusters.map Cluster.customer_ids).flatten ++
    σ.current_customers.map Customer.id

theorem closeState_processed {σ : SweepState} {σ2 : SweepState}
    (h : closeState σ = .ok σ2) :
    processedIds σ2 = processedIds σ ∧ σ2.current_customers = [] := by
  rw [closeState] at h
  split at h
  · exact absurd h (by simp)
  · cases h
    simp [processedIds]

theorem sweepStep_processed {fleets : List Fleet} {σ σ2 : SweepState}
    {c : Customer} (h : sweepStep fleets σ c = .ok σ2) :
    processedIds σ2 = processedIds σ ++ [c.id] := by
  rw [sweepStep] at h
  split at h
  · cases h
    simp [processedIds]
  · split at h
    · exact absurd h (by simp)
    · split at h
      · exact absurd h (by simp)
      · rename_i σc hclose
        split at h
        · cases h
          obtain ⟨hp, hcur⟩ := closeState_processed hclose
          rw [← hp]
          simp [processedIds, hcur]
        · exact absurd h (by simp)

theorem sweepGo_processed {fleets : List Fleet} :
    ∀ (cs : List Customer) (σ σ2 : SweepState),
      sweepGo fleets σ cs = .ok σ2 →
      processedIds σ2 = processedIds σ ++ cs.map Customer.id := by
  intro cs
  induction cs with
  | nil =>
    intro σ σ2 h
    cases h
    simp
  | cons c cs2 ih =>
    intro σ σ2 h
    rw [sweepGo] at h
    split at h
    · exact absurd h (by simp)
    · rename_i σm hstep
      rw [ih σm σ2 h, sweepStep_processed hstep]
      simp

/-- **C5**: when `build_clusters` succeeds, the concatenation of the
emitted clusters' customer id lists is exactly the swept order's id list,
hence a permutation of the input customers' id list: every input customer
id in exactly one cluster, exactly once, and nothing else. -/
theorem build_clusters_conserves_customers (inst : Instance)
    (order : List Customer) (clusters : List Cluster)
    (used : List (String × ℤ))
    (hperm : List.Perm order inst.customers)
    (hok : build_clusters inst order = .ok (clusters, used)) :
    (clusters.map Cluster.customer_ids).flatten = order.map Customer.id ∧
    List.Perm (clusters.map Cluster.customer_ids).flatten
      (inst.customers.map Customer.id) := by
  have hmain : (clusters.map Cluster.customer_ids).flatten =
      order.map Customer.id := by
    rw [build_clusters] at hok
    split at hok
    · exact absurd hok (by simp)
    · rename_i σ hgo
      have hσ := sweepGo_processed order (initState inst) σ hgo
      split at hok
      · exact absurd hok (by simp)
      · rename_i σ2 hflush
        cases hok
        split at hflush
        · rename_i hcur
          cases hflush
          have hfl : (σ.clusters.map Cluster.customer_ids).flatten =
              processedIds σ := by
            simp [processedIds, hcur]
          rw [hfl, hσ]
          simp [processedIds, initState]
        · obtain ⟨hp, hcur2⟩ := closeState_processed hflush
          have hfl : (σ2.clusters.map Cluster.customer_ids).flatten =
              processedIds σ2 := by
            simp [processedIds, hcur2]
          rw [hfl, hp, hσ]
          simp [processedIds, initState]
  exact ⟨hmain, by rw [hmain]; exact hperm.map Customer.id⟩

theorem min_by_capacity_mem {l : List Fleet} {f : Fleet}
    (h : min_by_capacity l = some f) : f ∈ l := by
  match l with
  | [] => exact absurd h (by simp [min_by_capacity])
  | q :: rest =>
    rw [min_by_capacity] at h
    have hgen : ∀ (sub : List Fleet), (∀ x, x ∈ sub → x ∈ q :: rest) →
        ∀ acc, acc ∈ q :: rest →
        sub.foldl (fun best g =>
          if g.capacity < best.capacity then g else best) acc ∈ q :: rest := by
      intro sub
      induction sub with
      | nil => intro _ acc hacc; exact hacc
      | cons x xs ihx =>
        intro hsub acc hacc
        rw [List.foldl_cons]
        apply ihx (fun y hy => hsub y (List.mem_cons_of_mem x hy))
        split
        · exact hsub x (List.mem_cons_self x xs)
        · exact hacc
    have hin := hgen rest (fun x hx => List.mem_cons_of_mem q hx) q
      (List.mem_cons_self q rest)
    rw [Option.some_inj.mp h] at hin
    exact hin

theorem feasible_fleets_mem {fleets : List Fleet} {units : String → ℤ}
    {d : ℚ} {f : Fleet} (h : f ∈ feasible_fleets fleets units d) :
    f ∈ fleets ∧ 0 < units f.id ∧ d ≤ f.capacity := by
  rw [feasible_fleets, List.mem_filter] at h
  have h2 := h.2
  simp only [Bool.and_eq_true, decide_eq_true_eq] at h2
  exact ⟨h.1, h2.1, h2.2⟩

/-- Well-formedness of an emitted cluster: its demand is the sum of its
members' demands, and some fleet record with its vehicle-type id has
capacity for it. -/
def ClusterOK (fleets : List Fleet) (cl : Cluster) : Prop :=
  (∃ members : List Customer, members.map Customer.id = cl.customer_ids ∧
    cl.total_demand = (members.map Customer.demand).sum) ∧
  ∃ f ∈ fleets, f.id = cl.vehicle_type ∧ cl.total_demand ≤ f.capacity

/-- Sweep-loop invariant: emitted clusters are well formed, the running
demand is the sum of the open cluster's demands, and a non-empty open
cluster has a feasible assigned vehicle. -/
def StateOK (fleets : List Fleet) (σ : SweepState) : Prop :=
  (∀ cl ∈ σ.clusters, ClusterOK fleets cl) ∧
  σ.current_demand = (σ.current_customers.map Customer.demand).sum ∧
  (σ.current_customers ≠ [] → ∃ v, σ.current_vehicle = some v ∧
    v ∈ fleets ∧ σ.current_demand ≤ v.capacity)

theorem closeState_stateOK {fleets : List Fleet} {σ σ2 : SweepState}
    (hσ : StateOK fleets σ) (hne : σ.current_customers ≠ [])
    (h : closeState σ = .ok σ2) :
    StateOK fleets σ2 ∧ σ2.clusters = σ.clusters ++
      [⟨σ.cluster_id, ((σ.current_vehicle.getD default).id),
        σ.current_customers.map Customer.id, σ.current_demand⟩] := by
  obtain ⟨hcl, hdem, hveh⟩ := hσ
  obtain ⟨v, hv, hvmem, hvcap⟩ := hveh hne
  rw [closeState] at h
  rw [hv] at h
  cases h
  refine ⟨⟨?_, by simp, by simp⟩, by simp [hv]⟩
  intro cl hclmem
  rcases List.mem_append.1 hclmem with hold | hnew
  · exact hcl cl hold
  · have : cl = ⟨σ.cluster_id, v.id, σ.current_customers.map Customer.id,
        σ.current_demand⟩ := by simpa using hnew
    subst this
    exact ⟨⟨σ.current_customers, rfl, hdem⟩, v, hvmem, rfl, hvcap⟩

theorem sweepStep_stateOK {fleets : List Fleet} {σ σ2 : SweepState}
    {c : Customer} (hσ : StateOK fleets σ)
    (h : sweepStep fleets σ c = .ok σ2) : StateOK fleets σ2 := by
  obtain ⟨hcl, hdem, hveh⟩ := hσ
  rw [sweepStep] at h
  split at h
  · rename_i chosen hmin
    cases h
    obtain ⟨hmem, hunits, hcap⟩ :=
      feasible_fleets_mem (min_by_capacity_mem hmin)
    exact ⟨hcl, by simp [hdem], fun _ => ⟨chosen, rfl, hmem, hcap⟩⟩
  · split at h
    · exact absurd h (by simp)
    · rename_i hne
      split at h
      · exact absurd h (by simp)
      · rename_i σc hclose
        obtain ⟨⟨hcl2, hdem2, hveh2⟩, hclus2⟩ :=
          closeState_stateOK ⟨hcl, hdem, hveh⟩ hne hclose
        split at h
        · rename_i chosen hmin
          cases h
          obtain ⟨hmem, hunits, hcap⟩ :=
            feasible_fleets_mem (min_by_capacity_mem hmin)
          exact ⟨hcl2, by simp [hdem2], fun _ => ⟨chosen, rfl, hmem, hcap⟩⟩
        · exact absurd h (by simp)

theorem sweepGo_stateOK {fleets : List Fleet} :
    ∀ (cs : List Customer) (σ σ2 : SweepState), StateOK fleets σ →
      sweepGo fleets σ cs = .ok σ2 → StateOK fleets σ2 := by
  intro cs
  induction cs with
  | nil =>
    intro σ σ2 hσ h
    cases h
    exact hσ
  | cons c cs2 ih =>
    intro σ σ2 hσ h
    rw [sweepGo] at h
    split at h
    · exact absurd h (by simp)
    · rename_i σm hstep
      exact ih σm σ2 (sweepStep_stateOK hσ hstep) h

theorem initState_stateOK {inst : Instance} :
    StateOK inst.fleet (initState inst) := by
  refine ⟨by simp [initState], by simp [initState], ?_⟩
  intro hne
  exact absurd rfl hne

/-- A cluster together with the actual customer records it was built from:
the recorded ids are the members' ids in order, and the recorded demand is
the sum of the members' demands. -/
def ClusterFrom (cl : Cluster) (members : List Customer) : Prop :=
  members.map Customer.id = cl.customer_ids ∧
  cl.total_demand = (members.map Customer.demand).sum

/-- Sweep-loop member tracking: the emitted clusters were built from actual
member lists whose concatenation, followed by the open cluster's customers,
is exactly the prefix of the sweep order processed so far. -/
def MembersInv (pre : List Customer) (σ : SweepState) : Prop :=
  ∃ mss : List (List Customer),
    List.Forall₂ ClusterFrom σ.clusters mss ∧
    mss.flatten ++ σ.current_customers = pre ∧
    σ.current_demand = (σ.current_customers.map Customer.demand).sum

/-- Appending one related pair to a pointwise-related pair of lists. -/
theorem forall₂_append_single {α β : Type} {R : α → β → Prop}
    {l1 : List α} {l2 : List β} (h : List.Forall₂ R l1 l2) {a : α} {b : β}
    (hab : R a b) : List.Forall₂ R (l1 ++ [a]) (l2 ++ [b]) := by
  induction h with
  | nil =>
    simp only [List.nil_append]
    exact List.Forall₂.cons hab List.Forall₂.nil
  | cons hr _ ih =>
    simp only [List.cons_append]
    exact List.Forall₂.cons hr ih

/-- A member of the left list of a pointwise relation has a related partner
in the right list. -/
theorem forall₂_mem_left {α β : Type} {R : α → β → Prop} :
    ∀ {l1 : List α} {l2 : List β}, List.Forall₂ R l1 l2 →
      ∀ {a : α}, a ∈ l1 → ∃ b, b ∈ l2 ∧ R a b := by
  intro l1 l2 h
  induction h with
  | nil => intro a ha; exact absurd ha (by simp)
  | cons hr _ ih =>
    intro a ha
    rcases List.mem_cons.1 ha with rfl | hmem
    · exact ⟨_, List.mem_cons_self _ _, hr⟩
    · obtain ⟨b, hb, hrb⟩ := ih hmem
      exact ⟨b, List.mem_cons_of_mem _ hb, hrb⟩

/-- Each block of a flattened list of blocks is a sublist of the result. -/
theorem sublist_flatten_of_mem {α : Type} {l : List α} :
    ∀ {L : List (List α)}, l ∈ L → l.Sublist L.flatten := by
  intro L
  induction L with
  | nil => intro h; exact absurd h (by simp)
  | cons x xs ih =>
    intro h
    rcases List.mem_cons.1 h with rfl | hmem
    · simpa using List.sublist_append_left l xs.flatten
    · exact (ih hmem).trans (by simpa using List.sublist_append_right x xs.flatten)

theorem closeState_members {pre : List Customer} {σ σ2 : SweepState}
    (hm : MembersInv pre σ) (h : closeState σ = .ok σ2) :
    MembersInv pre σ2 := by
  obtain ⟨mss, hf, hflat, hdem⟩ := hm
  rw [closeState] at h
  split at h
  · exact absurd h (by simp)
  · cases h
    refine ⟨mss ++ [σ.current_customers], forall₂_append_single hf ⟨rfl, hdem⟩,
      ?_, by simp⟩
    simp only [List.flatten_append, List.flatten_cons, List.flatten_nil,
      List.append_nil]
    exact hflat

theorem sweepStep_members {fleets : List Fleet} {pre : List Customer}
    {σ σ2 : SweepState} {c : Customer}
    (hm : MembersInv pre σ) (h : sweepStep fleets σ c = .ok σ2) :
    MembersInv (pre ++ [c]) σ2 := by
  obtain ⟨mss, hf, hflat, hdem⟩ := hm
  rw [sweepStep] at h
  split at h
  · cases h
    exact ⟨mss, hf, by rw [← List.append_assoc, hflat], by simp [hdem]⟩
  · split at h
    · exact absurd h (by simp)
    · split at h
      · exact absurd h (by simp)
      · rename_i σc hclose
        obtain ⟨mss2, hf2, hflat2, hdem2⟩ :=
          closeState_members ⟨mss, hf, hflat, hdem⟩ hclose
        have hcur : σc.current_customers = [] :=
          (closeState_processed hclose).2
        rw [hcur, List.append_nil] at hflat2
        rw [hcur] at hdem2
        simp only [List.map_nil, List.sum_nil] at hdem2
        split at h
        · cases h
          refine ⟨mss2, hf2, ?_, ?_⟩
          · rw [hcur, List.nil_append, hflat2]
          · rw [hcur, hdem2]
            simp
        · exact absurd h (by simp)

theorem sweepGo_members {fleets : List Fleet} :
    ∀ (cs : List Customer) (σ σ2 : SweepState) (pre : List Customer),
      MembersInv pre σ → sweepGo fleets σ cs = .ok σ2 →
      MembersInv (pre ++ cs) σ2 := by
  intro cs
  induction cs with
  | nil =>
    intro σ σ2 pre hm h
    cases h
    simpa using hm
  | cons c cs2 ih =>
    intro σ σ2 pre hm h
    rw [sweepGo] at h
    split at h
    · exact absurd h (by simp)
    · rename_i σm hstep
      have hres := ih σm σ2 (pre ++ [c]) (sweepStep_members hm hstep) h
      simpa [List.append_assoc] using hres

/-- **C6**: every cluster emitted by a successful `build_clusters` was built
from an actual sublist of the swept customer list: its recorded
`customer_ids` are exactly those members' ids and its `total_demand` is the
sum of those members' demands; moreover some fleet record carrying its
recorded `vehicle_type` id has capacity at least that demand. -/
theorem build_clusters_capacity (inst : Instance) (order : List Customer)
    (clusters : List Cluster) (used : List (String × ℤ))
    (hok : build_clusters inst order = .ok (clusters, used)) :
    ∀ cl ∈ clusters,
      (∃ members : List Customer, members.Sublist order ∧
        members.map Customer.id = cl.customer_ids ∧
        cl.total_demand = (members.map Customer.demand).sum) ∧
      ∃ f ∈ inst.fleet, f.id = cl.vehicle_type ∧
        cl.total_demand ≤ f.capacity := by
  have hminit : MembersInv [] (initState inst) :=
    ⟨[], List.Forall₂.nil, by simp [initState], by simp [initState]⟩
  rw [build_clusters] at hok
  split at hok
  · exact absurd hok (by simp)
  · rename_i σ hgo
    have hσ := sweepGo_stateOK order (initState inst) σ initState_stateOK hgo
    have hmem : MembersInv order σ := by
      have hres := sweepGo_members order (initState inst) σ [] hminit hgo
      simpa using hres
    split at hok
    · exact absurd hok (by simp)
    · rename_i σ2 hflush
      cases hok
      split at hflush
      · cases hflush
        intro cl hcl
        refine ⟨?_, (hσ.1 cl hcl).2⟩
        obtain ⟨mss, hf, hflat, _⟩ := hmem
        obtain ⟨ms, hmsmem, hcf⟩ := forall₂_mem_left hf hcl
        refine ⟨ms, ?_, hcf.1, hcf.2⟩
        refine (sublist_flatten_of_mem hmsmem).trans ?_
        rw [← hflat]
        exact List.sublist_append_left _ _
      · rename_i hne
        obtain ⟨hok2, _⟩ := closeState_stateOK hσ hne hflush
        have hmem2 : MembersInv order σ2 := closeState_members hmem hflush
        intro cl hcl
        refine ⟨?_, (hok2.1 cl hcl).2⟩
        obtain ⟨mss, hf, hflat, _⟩ := hmem2
        obtain ⟨ms, hmsmem, hcf⟩ := forall₂_mem_left hf hcl
        refine ⟨ms, ?_, hcf.1, hcf.2⟩
        refine (sublist_flatten_of_mem hmsmem).trans ?_
        rw [← hflat]
        exact List.sublist_append_left _ _

/-- The claim's failure condition: no fleet type has both a remaining unit
and capacity at least the pending demand. -/
def stuck (fleets : List Fleet) (units : String → ℤ) (d : ℚ) : Prop :=
  ∀ f ∈ fleets, ¬(0 < units f.id ∧ d ≤ f.capacity)

theorem min_none_iff_stuck {fleets : List Fleet} {units : String → ℤ}
    {d : ℚ} :
    min_by_capacity (feasible_fleets fleets units d) = none ↔
      stuck fleets units d := by
  have hnil : min_by_capacity (feasible_fleets fleets units d) = none ↔
      feasible_fleets fleets units d = [] := by
    cases hf : feasible_fleets fleets units d with
    | nil => simp [min_by_capacity]
    | cons a l => simp [min_by_capacity]
  rw [hnil, feasible_fleets, List.filter_eq_nil_iff]
  constructor
  · intro h f hf hc
    have := h f hf
    simp only [Bool.and_eq_true, decide_eq_true_eq, not_and] at this
    exact absurd (this hc.1) (not_not_intro hc.2)
  · intro h f hf
    have := h f hf
    simp only [Bool.and_eq_true, decide_eq_true_eq]
    intro hc
    exact this ⟨hc.1, hc.2⟩

/-- The sweep trajectory from a state: it aborts exactly when it reaches a
pending customer that no fleet type can take into an empty current cluster.
`here` is the aborting condition of the claim; `close` and `step` are the
sweep's own transitions (close-and-retry, successful placement). -/
inductive AbortsAt (fleets : List Fleet) : SweepState → List Customer → Prop where
  | here {σ : SweepState} {c : Customer} {cs : List Customer} :
      σ.current_customers = [] →
      stuck fleets σ.available_units c.demand →
      AbortsAt fleets σ (c :: cs)
  | close {σ σ2 : SweepState} {c : Customer} {cs : List Customer} :
      σ.current_customers ≠ [] →
      stuck fleets σ.available_units (σ.current_demand + c.demand) →
      closeState σ = .ok σ2 →
      AbortsAt fleets σ2 (c :: cs) →
      AbortsAt fleets σ (c :: cs)
  | step {σ σ2 : SweepState} {c : Customer} {cs : List Customer} :
      sweepStep fleets σ c = .ok σ2 →
      AbortsAt fleets σ2 cs →
      AbortsAt fleets σ (c :: cs)

theorem closeState_fields {σ σ2 : SweepState} (h : closeState σ = .ok σ2) :
    σ2.current_customers = [] ∧ σ2.current_demand = 0 := by
  rw [closeState] at h
  split at h
  · exact absurd h (by simp)
  · cases h
    exact ⟨rfl, rfl⟩

theorem sweepGo_error_aborts {fleets : List Fleet} :
    ∀ (cs : List Customer) (σ : SweepState), StateOK fleets σ →
      ∀ e, sweepGo fleets σ cs = .error e →
        e = .capacityInfeasible ∧ AbortsAt fleets σ cs := by
  intro cs
  induction cs with
  | nil =>
    intro σ hσ e h
    exact absurd h (by simp [sweepGo])
  | cons c cs2 ih =>
    intro σ hσ e h
    rw [sweepGo] at h
    split at h
    · rename_i e2 hstep
      have he : e2 = e := by simpa using h
      subst he
      rw [sweepStep] at hstep
      split at hstep
      · exact absurd hstep (by simp)
      · rename_i hmin1
        split at hstep
        · rename_i hcur
          have he2 : SweepError.capacityInfeasible = e2 := by simpa using hstep
          have hd0 : σ.current_demand = 0 := by
            rw [hσ.2.1, hcur]
            simp
          refine ⟨he2.symm, AbortsAt.here hcur ?_⟩
          have hs := min_none_iff_stuck.1 hmin1
          rw [hd0, zero_add] at hs
          exact hs
        · rename_i hne
          split at hstep
          · rename_i e3 hclose
            exfalso
            obtain ⟨v, hv, _, _⟩ := hσ.2.2 hne
            rw [closeState, hv] at hclose
            exact absurd hclose (by simp)
          · rename_i σc hclose
            split at hstep
            · exact absurd hstep (by simp)
            · rename_i hmin2
              have he2 : SweepError.capacityInfeasible = e2 := by
                simpa using hstep
              obtain ⟨hcur2, hd02⟩ := closeState_fields hclose
              refine ⟨he2.symm,
                AbortsAt.close hne (min_none_iff_stuck.1 hmin1) hclose
                  (AbortsAt.here hcur2 ?_)⟩
              have hs := min_none_iff_stuck.1 hmin2
              rw [hd02, zero_add] at hs
              exact hs
    · rename_i σ2 hstep
      obtain ⟨he, hab⟩ := ih σ2 (sweepStep_stateOK hσ hstep) e h
      exact ⟨he, AbortsAt.step hstep hab⟩

theorem aborts_sweepGo_error {fleets : List Fleet} {σ : SweepState}
    {cs : List Customer} (hab : AbortsAt fleets σ cs) :
    StateOK fleets σ → sweepGo fleets σ cs = .error .capacityInfeasible := by
  induction hab with
  | here hcur hstuck =>
    rename_i σ c cs
    intro hσ
    have hd0 : σ.current_demand = 0 := by
      rw [hσ.2.1, hcur]
      simp
    have hmin : min_by_capacity (feasible_fleets fleets σ.available_units
        (σ.current_demand + c.demand)) = none := by
      rw [min_none_iff_stuck, hd0, zero_add]
      exact hstuck
    rw [sweepGo, sweepStep, hmin, if_pos hcur]
  | close hne hstuck hclose hab2 ih =>
    rename_i σ σc c cs
    intro hσ
    have hσc : StateOK fleets σc := (closeState_stateOK hσ hne hclose).1
    obtain ⟨hcur2, hd02⟩ := closeState_fields hclose
    have hmin1 : min_by_capacity (feasible_fleets fleets σ.available_units
        (σ.current_demand + c.demand)) = none :=
      min_none_iff_stuck.2 hstuck
    have hkey : sweepStep fleets σ c = sweepStep fleets σc c := by
      simp only [sweepStep, hmin1, hclose, if_neg hne]
      cases hm2 : min_by_capacity (feasible_fleets fleets
          σc.available_units (σc.current_demand + c.demand)) with
      | some chosen => simp [hm2]
      | none => simp [hm2, hcur2]
    have hgo : sweepGo fleets σ (c :: cs) = sweepGo fleets σc (c :: cs) := by
      conv_lhs => rw [sweepGo]
      conv_rhs => rw [sweepGo]
      rw [hkey]
    rw [hgo]
    exact ih hσc
  | step hstep hab2 ih =>
    rename_i σ σ2 c cs
    intro hσ
    rw [sweepGo, hstep]
    exact ih (sweepStep_stateOK hσ hstep)

/-- **C7**: `build_clusters` fails (necessarily with the
`CapacityInfeasible` error — no other failure is reachable) if and only if
the sweep trajectory reaches a pending customer that, with the current
cluster empty, no fleet type can serve with a remaining unit and enough
capacity (`AbortsAt`, whose sole aborting rule `here` is exactly that
condition; the `Except.error` result carries no clusters, so no cluster
containing that customer is emitted). -/
theorem build_clusters_error_iff (inst : Instance) (order : List Customer) :
    (build_clusters inst order = .error .capacityInfeasible ↔
      AbortsAt inst.fleet (initState inst) order) ∧
    ∀ e, build_clusters inst order = .error e →
      e = .capacityInfeasible := by
  have hinit : StateOK inst.fleet (initState inst) := initState_stateOK
  constructor
  · constructor
    · intro h
      rw [build_clusters] at h
      split at h
      · rename_i e hgo
        have he : e = .capacityInfeasible := by simpa using h
        subst he
        exact (sweepGo_error_aborts order (initState inst) hinit _ hgo).2
      · rename_i σ hgo
        exfalso
        split at h
        · rename_i e2 hflush
          split at hflush
          · exact absurd hflush (by simp)
          · rename_i hne
            have hσ := sweepGo_stateOK order (initState inst) σ hinit hgo
            obtain ⟨v, hv, _, _⟩ := hσ.2.2 hne
            rw [closeState, hv] at hflush
            exact absurd hflush (by simp)
        · exact absurd h (by simp)
    · intro hab
      have herr := aborts_sweepGo_error hab hinit
      rw [build_clusters, herr]
  · intro e h
    rw [build_clusters] at h
    split at h
    · rename_i e2 hgo
      have he : e2 = e := by simpa using h
      subst he
      exact (sweepGo_error_aborts order (initState inst) hinit _ hgo).1
    · rename_i σ hgo
      exfalso
      split at h
      · rename_i e2 hflush
        split at hflush
        · exact absurd hflush (by simp)
        · rename_i hne
          have hσ := sweepGo_stateOK order (initState inst) σ hinit hgo
          obtain ⟨v, hv, _, _⟩ := hσ.2.2 hne
          rw [closeState, hv] at hflush
          exact absurd hflush (by simp)
      · exact absurd h (by simp)

/-- Witness sweep output on the witness instance. -/
def wBC : List Cluster × List (String × ℤ) :=
  match build_clusters Rvnd.wInst Rvnd.wInst.customers with
  | .ok r => r
  | .error _ => default

theorem build_clusters_conserves_customers_witness :
    List.Perm Rvnd.wInst.customers Rvnd.wInst.customers ∧
    build_clusters Rvnd.wInst Rvnd.wInst.customers = .ok (wBC.1, wBC.2) ∧
    ((wBC.1.map Cluster.customer_ids).flatten =
        Rvnd.wInst.customers.map Customer.id ∧
      List.Perm (wBC.1.map Cluster.customer_ids).flatten
        (Rvnd.wInst.customers.map Customer.id)) :=
  ⟨List.Perm.refl _, rfl,
    build_clusters_conserves_customers Rvnd.wInst Rvnd.wInst.customers wBC.1
      wBC.2 (List.Perm.refl _) rfl⟩

theorem build_clusters_capacity_witness :
    build_clusters Rvnd.wInst Rvnd.wInst.customers = .ok (wBC.1, wBC.2) ∧
    ∀ cl ∈ wBC.1,
      (∃ members : List Customer, members.Sublist Rvnd.wInst.customers ∧
        members.map Customer.id = cl.customer_ids ∧
        cl.total_demand = (members.map Customer.demand).sum) ∧
      ∃ f ∈ Rvnd.wInst.fleet, f.id = cl.vehicle_type ∧
        cl.total_demand ≤ f.capacity :=
  ⟨rfl, build_clusters_capacity Rvnd.wInst Rvnd.wInst.customers wBC.1 wBC.2
    rfl⟩

/-- Witness instance on which clustering must fail: two customers of
demand 6, a single vehicle of capacity 10. -/
def wFailInst : Instance :=
  ⟨⟨0, 0, ⟨480, 1080⟩, 0⟩,
   [⟨1, 10, 0, 6, ⟨480, 540⟩, 10⟩, ⟨2, 0, 10, 6, ⟨480, 540⟩, 10⟩],
   [⟨"truck", 10, 1⟩]⟩

theorem build_clusters_error_iff_witness :
    build_clusters wFailInst wFailInst.customers =
      .error .capacityInfeasible ∧
    AbortsAt wFailInst.fleet (initState wFailInst) wFailInst.customers :=
  ⟨rfl, (build_clusters_error_iff wFailInst wFailInst.customers).1.mp rfl⟩

end SweepNN

end RouteOpt
